import Mathlib

/-!
# TenCoinCMS-Backend: shallow embedding and verification

This file embeds the mutation core of the TenCoinCMS backend (a Fastify +
Prisma inventory/order CRUD service) as pure Lean functions over an explicit
database state, and proves the specified properties about it.

The repository contains two parallel implementations of most mutations:

* the service classes `ProductService` (src/services/productService.ts),
  `OrderService` (src/services/orderService.ts) and
  `VendorService` (src/services/vendorService.ts), and
* the route handlers in src/routes/products.ts and src/routes/orders.ts,
  which access Prisma directly (these are the handlers registered in
  src/index.ts).

Both are embedded here, with a `service` / `route` prefix respectively.
Prisma calls are modelled as pure operations on a `DB` record: `findUnique`
becomes `List.find?`, `findMany where id in ids` becomes `List.filter` with
`List.contains`, `create` appends, `update` maps, `deleteMany` filters, and
an interactive `$transaction` becomes sequential state passing where any
error returns the original state (rollback).

Error kinds follow the taxonomy of the specification (ValidationError /
ConflictError / NotFoundError / PersistenceError); each embedded operation
carries the concrete message string used by the corresponding code path
(the zod 400 responses and the 404/500 responses of the route handlers, and
the thrown `Error` messages of the service classes).
-/

/-- Error kinds of the specification's taxonomy, carrying the concrete
message strings of the code. Zod rejections and the "some products not
found" responses are validation errors; duplicate-barcode and
delete-blocked responses are conflict errors; 404 responses and the
service classes' "not found" throws are not-found errors; gateway/database
failures surfaced as 500 are persistence errors. -/
inductive ApiError where
  | validationError (msg : String)
  | conflictError (msg : String)
  | notFoundError (msg : String)
  | persistenceError (msg : String)
deriving DecidableEq, Repr

/-- True exactly on the `validationError` kind. -/
def ApiError.isValidation : ApiError → Bool
  | ApiError.validationError _ => true
  | _ => false

/-- True exactly on the `conflictError` kind. -/
def ApiError.isConflict : ApiError → Bool
  | ApiError.conflictError _ => true
  | _ => false

/-- True when an operation result is an error, of any kind. -/
def resultIsErr {α : Type} : Except ApiError α → Bool
  | Except.error _ => true
  | Except.ok _ => false

/-- True when an operation result is a `validationError`. -/
def resultIsValidationErr {α : Type} : Except ApiError α → Bool
  | Except.error e => e.isValidation
  | Except.ok _ => false

/-- True when an operation result is a `conflictError`. -/
def resultIsConflictErr {α : Type} : Except ApiError α → Bool
  | Except.error e => e.isConflict
  | Except.ok _ => false

/-- The `status` enum of the Prisma `Product` model
(`ACTIVE`, `OUT_OF_STOCK`, `DISCONTINUED`). -/
inductive ProductStatus where
  | ACTIVE
  | OUT_OF_STOCK
  | DISCONTINUED
deriving DecidableEq, Repr

/-- A `Product` row. `costPrice`, `sellPrice` are JSON numbers, modelled as
rationals. `none` models SQL NULL for the optional text columns.
Timestamps are omitted: no verified property mentions them. -/
structure Product where
  id : String
  name : String
  barcode : String
  costPrice : Rat
  sellPrice : Rat
  vendors : List String
  imagePath : Option String
  status : ProductStatus
  tags : List String
  note : Option String
  isOrdered : Bool
deriving DecidableEq, Repr

/-- An `Order` row (its items live in `DB.orderItems`, keyed by `orderId`). -/
structure Order where
  id : String
  note : Option String
deriving DecidableEq, Repr

/-- An `OrderItem` row. The synthetic row id is omitted: no verified
property distinguishes rows beyond (orderId, productId, quantity).
`quantity` is a JSON number, modelled as a rational. -/
structure OrderItem where
  orderId : String
  productId : String
  quantity : Rat
deriving DecidableEq, Repr

/-- The database state: the three tables touched by the mutation core. -/
structure DB where
  products : List Product
  orders : List Order
  orderItems : List OrderItem
deriving DecidableEq, Repr

/-- Well-formedness of the product table: the synthetic ids generated by
the gateway are pairwise distinct. -/
def IdsUnique (db : DB) : Prop :=
  (db.products.map fun p => p.id).Nodup

/-- The barcode-uniqueness invariant of the specification: at most one
product with a given barcode exists. -/
def BarcodesUnique (db : DB) : Prop :=
  (db.products.map fun p => p.barcode).Nodup

/-- JavaScript `x || null` on an optional string: an absent or empty
string becomes SQL NULL. -/
def jsOrNull : Option String → Option String
  | some s => if s = "" then none else some s
  | none => none

/-- The static vendor registry of `VendorService` (id, display name). -/
def VENDORS : List (String × String) :=
  [("01", "久益"), ("02", "益發"), ("03", "華"), ("05", "長呈"),
   ("08", "台利"), ("12", "博志"), ("15", "金禾"), ("17", "松果"),
   ("20", "天母"), ("23", "承佑")]

/-- `VendorService.validateVendorIds`: false on an empty list, otherwise
every id must occur in the registry. -/
def validateVendorIds (vendorIds : List String) : Bool :=
  if vendorIds.isEmpty then false
  else vendorIds.all fun vid => (VENDORS.map fun v => v.1).contains vid

/-- `prisma.product.findUnique({ where: { id } })`. -/
def findProductById (db : DB) (i : String) : Option Product :=
  db.products.find? fun p => p.id == i

/-- `prisma.product.findUnique({ where: { barcode } })`. -/
def findProductByBarcode (db : DB) (b : String) : Option Product :=
  db.products.find? fun p => p.barcode == b

/-- `prisma.product.findMany({ where: { id: { in: ids } } })`: one row per
stored product whose id is in the requested list. -/
def findProductsByIds (db : DB) (ids : List String) : List Product :=
  db.products.filter fun p => ids.contains p.id

/-- The `OrderItem` rows referencing a product
(`include: { orderItems: true }` on the product). -/
def orderItemsOfProduct (db : DB) (i : String) : List OrderItem :=
  db.orderItems.filter fun oi => oi.productId == i

/-- The `OrderItem` rows owned by an order. -/
def orderItemsOfOrder (db : DB) (i : String) : List OrderItem :=
  db.orderItems.filter fun oi => oi.orderId == i

/-- Modelled from the spec: the Prisma schema file (prisma/schema.prisma)
is not among the sources; per the data model, a new Product's `isOrdered`
flag "defaults false" and its `status` defaults to ACTIVE, and neither
create path passes these fields explicitly, so the stored row receives the
schema defaults. -/
def defaultIsOrdered : Bool := false

/-- Modelled from the spec: the Prisma schema file is not among the
sources; the spec's invariant "every `items[i].productId` must reference an
existing Product at the moment the order (or updated item set) is
committed" is enforced by the gateway, so an `orderItem` insert whose
`productId` resolves to no product is rejected by the store with a gateway
(persistence) failure, rolling back the enclosing transaction. -/
def fkOrderItemsOk (db : DB) (rows : List OrderItem) : Bool :=
  rows.all fun oi => db.products.any fun p => p.id == oi.productId

/-- Modelled from the spec: the Prisma schema file is not among the
sources; the spec blocks deletion "while referential integrity would be
violated", so the gateway's `product.delete` is rejected with a persistence
failure while a dependent `OrderItem` row still references the product. -/
def prismaProductDelete (db : DB) (i : String) : Except ApiError DB :=
  if (orderItemsOfProduct db i).isEmpty then
    Except.ok { db with products := db.products.filter fun p => !(p.id == i) }
  else
    Except.error (ApiError.persistenceError "Foreign key constraint violated")

/-! ## Service-level product operations (`ProductService`)

The request types `CreateProductRequest` / `UpdateProductRequest` come from
`@/types`, whose file is not among the sources; their fields are exactly
the ones the service reads, so the records below carry precisely those. -/

/-- `CreateProductRequest` as consumed by `ProductService.createProduct`. -/
structure CreateProductRequest where
  name : String
  barcode : String
  costPrice : Rat
  sellPrice : Rat
  vendors : Option (List String)
  imagePath : Option String
  tags : Option (List String)
  note : Option String
deriving DecidableEq, Repr

/-- `UpdateProductRequest` as consumed by `ProductService.updateProduct`:
every field optional. -/
structure UpdateProductRequest where
  name : Option String
  barcode : Option String
  costPrice : Option Rat
  sellPrice : Option Rat
  vendors : Option (List String)
  imagePath : Option String
  status : Option ProductStatus
  isOrdered : Option Bool
  tags : Option (List String)
  note : Option String
deriving DecidableEq, Repr

/-- The service classes' conditional vendor check, in rejecting form: a
present, non-empty vendor list that fails `validateVendorIds` rejects the
write; an absent or empty list is not checked. -/
def vendorsInvalid (vs? : Option (List String)) : Bool :=
  match vs? with
  | some vs => if vs.length > 0 then !(validateVendorIds vs) else false
  | none => false

/-- The row persisted by `ProductService.createProduct`: absent optional
lists default to `[]`, `imagePath` is coerced by `|| null`, `note` is
passed through `?? null` (identity on an option), and `status` /
`isOrdered` receive schema defaults. -/
def mkServiceProduct (freshId : String) (data : CreateProductRequest) : Product :=
  { id := freshId
    name := data.name
    barcode := data.barcode
    costPrice := data.costPrice
    sellPrice := data.sellPrice
    vendors := data.vendors.getD []
    imagePath := jsOrNull data.imagePath
    status := ProductStatus.ACTIVE
    tags := data.tags.getD []
    note := data.note
    isOrdered := defaultIsOrdered }

/-- `ProductService.createProduct`: reject an existing barcode, validate a
non-empty vendor list against the registry, then persist. `freshId` is the
synthetic id generated by the gateway. -/
def serviceCreateProduct (db : DB) (freshId : String)
    (data : CreateProductRequest) : Except ApiError (DB × Product) :=
  match findProductByBarcode db data.barcode with
  | some _ => Except.error (ApiError.conflictError "Barcode already exists")
  | none =>
    if vendorsInvalid data.vendors then
      Except.error (ApiError.validationError "Invalid vendor IDs")
    else
      let p : Product := mkServiceProduct freshId data
      Except.ok ({ db with products := db.products ++ [p] }, p)

/-- The conditional duplicate-barcode check shared by both update paths:
only a truthy submitted barcode that differs from the stored one is
checked against the table. -/
def barcodeConflict (db : DB) (existing : Product) (b? : Option String) : Bool :=
  match b? with
  | some b =>
    if b != "" && b != existing.barcode then
      (findProductByBarcode db b).isSome
    else false
  | none => false

/-- The sparse patch built by `ProductService.updateProduct`: every field
defined in the payload is applied, every other field keeps the stored
value. -/
def servicePatch (existing : Product) (data : UpdateProductRequest) : Product :=
  { id := existing.id
    name := data.name.getD existing.name
    barcode := data.barcode.getD existing.barcode
    costPrice := data.costPrice.getD existing.costPrice
    sellPrice := data.sellPrice.getD existing.sellPrice
    vendors := data.vendors.getD existing.vendors
    imagePath :=
      match data.imagePath with
      | some s => some s
      | none => existing.imagePath
    status := data.status.getD existing.status
    tags := data.tags.getD existing.tags
    note :=
      match data.note with
      | some s => some s
      | none => existing.note
    isOrdered := data.isOrdered.getD existing.isOrdered }

/-- `ProductService.updateProduct`: not-found check, conditional barcode
conflict check (only when a truthy barcode differing from the current one
is supplied), conditional vendor validation, then a sparse update built
field-by-field from the defined fields of the payload. -/
def serviceUpdateProduct (db : DB) (i : String)
    (data : UpdateProductRequest) : Except ApiError (DB × Product) :=
  match findProductById db i with
  | none => Except.error (ApiError.notFoundError "Product not found")
  | some existing =>
    if barcodeConflict db existing data.barcode then
      Except.error (ApiError.conflictError "Barcode already exists")
    else
      if vendorsInvalid data.vendors then
        Except.error (ApiError.validationError "Invalid vendor IDs")
      else
        let p' : Product := servicePatch existing data
        Except.ok
          ({ db with
              products := db.products.map fun q => if q.id == i then p' else q },
            p')

/-- `ProductService.deleteProduct`: not-found check, then the bare gateway
delete — the service performs no dependent-order check of its own. -/
def serviceDeleteProduct (db : DB) (i : String) : Except ApiError DB :=
  match findProductById db i with
  | none => Except.error (ApiError.notFoundError "Product not found")
  | some _ => prismaProductDelete db i

/-! ## Route-level product operations (src/routes/products.ts)

These are the handlers registered in src/index.ts. The zod
`createProductSchema` is embedded as a validity predicate over an
already-typed payload in which zod's defaults (`vendorIds: []`,
`status: 'ACTIVE'`, `tags: []`) have been applied; `.partial()` for the
update handler makes every field optional with no default applied. -/

/-- A `POST /products` body after typing and zod defaulting. -/
structure RawCreateProduct where
  name : String
  barcode : String
  costPrice : Rat
  sellPrice : Rat
  vendorIds : List String
  imagePath : Option String
  status : ProductStatus
  tags : List String
  note : Option String
deriving DecidableEq, Repr

/-- A `PUT /products/:id` body after typing
(`createProductSchema.partial()`). -/
structure RawUpdateProduct where
  name : Option String
  barcode : Option String
  costPrice : Option Rat
  sellPrice : Option Rat
  vendorIds : Option (List String)
  imagePath : Option String
  status : Option ProductStatus
  tags : Option (List String)
  note : Option String
deriving DecidableEq, Repr

/-- The checks of `createProductSchema`: non-empty name and barcode,
strictly positive prices. -/
def createProductValid (r : RawCreateProduct) : Bool :=
  decide (1 ≤ r.name.length) && decide (1 ≤ r.barcode.length) &&
  decide (0 < r.costPrice) && decide (0 < r.sellPrice)

/-- The checks of `createProductSchema.partial()`: each constraint applies
only when the field is present. -/
def updateProductValid (r : RawUpdateProduct) : Bool :=
  (r.name.all fun s => decide (1 ≤ s.length)) &&
  (r.barcode.all fun s => decide (1 ≤ s.length)) &&
  (r.costPrice.all fun c => decide (0 < c)) &&
  (r.sellPrice.all fun c => decide (0 < c))

/-- The row persisted by `POST /products`: `imagePath` and `note` are
coerced by `|| null`, `vendorIds` is stored as submitted with no registry
check, `status` comes zod-defaulted, and `isOrdered` receives the schema
default. -/
def mkRouteProduct (freshId : String) (r : RawCreateProduct) : Product :=
  { id := freshId
    name := r.name
    barcode := r.barcode
    costPrice := r.costPrice
    sellPrice := r.sellPrice
    vendors := r.vendorIds
    imagePath := jsOrNull r.imagePath
    status := r.status
    tags := r.tags
    note := jsOrNull r.note
    isOrdered := defaultIsOrdered }

/-- `POST /products`: zod parse, duplicate-barcode check, then persist.
No vendor-registry validation is performed on this path; `vendorIds` is
stored as submitted. `freshId` is the gateway-generated id. -/
def routeCreateProduct (db : DB) (freshId : String)
    (r : RawCreateProduct) : Except ApiError (DB × Product) :=
  if !createProductValid r then
    Except.error (ApiError.validationError "驗證錯誤")
  else
    match findProductByBarcode db r.barcode with
    | some _ => Except.error (ApiError.conflictError "條碼已存在")
    | none =>
      let p : Product := mkRouteProduct freshId r
      Except.ok ({ db with products := db.products ++ [p] }, p)

/-- The sparse patch built by `PUT /products/:id`: every field defined in
the payload is applied (`imagePath` and `note` through `|| null`), every
other field keeps the stored value; the schema has no `isOrdered` field,
so the flag is always left untouched. -/
def routePatch (existing : Product) (r : RawUpdateProduct) : Product :=
  { id := existing.id
    name := r.name.getD existing.name
    barcode := r.barcode.getD existing.barcode
    costPrice := r.costPrice.getD existing.costPrice
    sellPrice := r.sellPrice.getD existing.sellPrice
    vendors := r.vendorIds.getD existing.vendors
    imagePath :=
      match r.imagePath with
      | some s => jsOrNull (some s)
      | none => existing.imagePath
    status := r.status.getD existing.status
    tags := r.tags.getD existing.tags
    note :=
      match r.note with
      | some s => jsOrNull (some s)
      | none => existing.note
    isOrdered := existing.isOrdered }

/-- `PUT /products/:id`: zod parse, not-found check, conditional
duplicate-barcode check, then a sparse update built field-by-field from
the defined fields (there is no `isOrdered` field in the schema, so the
flag is always left untouched here). -/
def routeUpdateProduct (db : DB) (i : String)
    (r : RawUpdateProduct) : Except ApiError (DB × Product) :=
  if !updateProductValid r then
    Except.error (ApiError.validationError "驗證錯誤")
  else
    match findProductById db i with
    | none => Except.error (ApiError.notFoundError "產品不存在")
    | some existing =>
      if barcodeConflict db existing r.barcode then
        Except.error (ApiError.conflictError "條碼已存在")
      else
        let p' : Product := routePatch existing r
        Except.ok
          ({ db with
              products := db.products.map fun q => if q.id == i then p' else q },
            p')

/-- `DELETE /products/:id`: not-found check, dependent-order check against
the product's `orderItems`, then the gateway delete. -/
def routeDeleteProduct (db : DB) (i : String) : Except ApiError DB :=
  match findProductById db i with
  | none => Except.error (ApiError.notFoundError "產品不存在")
  | some _ =>
    if (orderItemsOfProduct db i).length > 0 then
      Except.error (ApiError.conflictError "無法刪除產品，該產品已有相關訂單")
    else
      prismaProductDelete db i

/-! ## Order payloads and zod schemas (src/routes/orders.ts) -/

/-- An entry of the `items` array of an order payload. -/
structure RawOrderItem where
  productId : String
  quantity : Rat
deriving DecidableEq, Repr

/-- `orderItemSchema`: `productId` a non-empty string, `quantity` a
strictly positive number (no integrality constraint). -/
def orderItemValid (it : RawOrderItem) : Bool :=
  decide (1 ≤ it.productId.length) && decide (0 < it.quantity)

/-- A `POST /orders` body after typing. -/
structure RawCreateOrder where
  note : Option String
  items : List RawOrderItem
deriving DecidableEq, Repr

/-- A `PUT /orders/:id` body after typing (`createOrderSchema.partial()`). -/
structure RawUpdateOrder where
  note : Option String
  items : Option (List RawOrderItem)
deriving DecidableEq, Repr

/-- `createOrderSchema`: at least one item, every item valid. -/
def createOrderValid (r : RawCreateOrder) : Bool :=
  decide (1 ≤ r.items.length) && r.items.all orderItemValid

/-- `createOrderSchema.partial()`: the same item checks, applied only when
`items` is present. -/
def updateOrderValid (r : RawUpdateOrder) : Bool :=
  match r.items with
  | none => true
  | some its => decide (1 ≤ its.length) && its.all orderItemValid

/-- The stored row for a submitted item of order `oid`. -/
def mkOrderItem (oid : String) (it : RawOrderItem) : OrderItem :=
  { orderId := oid, productId := it.productId, quantity := it.quantity }

/-! ## Order operations: route handlers (src/routes/orders.ts) -/

/-- `POST /orders`: zod parse; one batched existence lookup over the
submitted productIds, compared by count against the raw id list; persist
the order and all items; then `updateMany` setting `isOrdered := true` on
every referenced product. `freshId` is the gateway-generated order id. -/
def routeCreateOrder (db : DB) (freshId : String)
    (r : RawCreateOrder) : Except ApiError (DB × Order) :=
  if !createOrderValid r then
    Except.error (ApiError.validationError "驗證錯誤")
  else
    let productIds := r.items.map fun it => it.productId
    let products := findProductsByIds db productIds
    if !(products.length == productIds.length) then
      Except.error (ApiError.validationError "部分產品不存在")
    else
      let ord : Order := { id := freshId, note := jsOrNull r.note }
      let rows := r.items.map (mkOrderItem freshId)
      if !fkOrderItemsOk db rows then
        Except.error (ApiError.persistenceError "創建訂單失敗")
      else
        let db1 : DB :=
          { db with
              orders := db.orders ++ [ord]
              orderItems := db.orderItems ++ rows }
        let db2 : DB :=
          { db1 with
              products := db1.products.map fun p =>
                if productIds.contains p.id then { p with isOrdered := true } else p }
        Except.ok (db2, ord)

/-- `PUT /orders/:id`: zod parse; not-found check; then one transaction
that, when `items` is present, deletes every existing item of the order
and bulk-inserts the new set (with no product-existence pre-check — a
dangling productId is only caught by the gateway's referential
enforcement, surfacing as a 500), and updates `note` only when it is
present in the payload. Any error inside the transaction rolls the whole
state back. -/
def routeOrderNote (existing : Order) (note? : Option String) : Option String :=
  match note? with
  | some s => jsOrNull (some s)
  | none => existing.note

def routeUpdateOrder (db : DB) (i : String)
    (r : RawUpdateOrder) : Except ApiError (DB × Order) :=
  if !updateOrderValid r then
    Except.error (ApiError.validationError "驗證錯誤")
  else
    match db.orders.find? fun o => o.id == i with
    | none => Except.error (ApiError.notFoundError "訂單不存在")
    | some existing =>
      let itemsStep : Except ApiError DB :=
        match r.items with
        | none => Except.ok db
        | some its =>
          let db1 : DB :=
            { db with orderItems := db.orderItems.filter fun oi => !(oi.orderId == i) }
          let rows := its.map (mkOrderItem i)
          if !fkOrderItemsOk db rows then
            Except.error (ApiError.persistenceError "更新訂單失敗")
          else
            Except.ok { db1 with orderItems := db1.orderItems ++ rows }
      match itemsStep with
      | Except.error e => Except.error e
      | Except.ok db2 =>
        let ord : Order := { existing with note := routeOrderNote existing r.note }
        Except.ok
          ({ db2 with orders := db2.orders.map fun o => if o.id == i then ord else o },
            ord)

/-! ## Order operations: service level (`OrderService`) -/

/-- `OrderService.createOrder`: the same batched existence check as the
route handler, then persist order and items. The service never touches the
products' `isOrdered` flag. -/
def serviceCreateOrder (db : DB) (freshId : String)
    (data : RawCreateOrder) : Except ApiError (DB × Order) :=
  let productIds := data.items.map fun it => it.productId
  let products := findProductsByIds db productIds
  if !(products.length == productIds.length) then
    Except.error (ApiError.validationError "Some products not found")
  else
    let ord : Order := { id := freshId, note := data.note }
    let rows := data.items.map (mkOrderItem freshId)
    if !fkOrderItemsOk db rows then
      Except.error (ApiError.persistenceError "Foreign key constraint violated")
    else
      Except.ok
        ({ db with
            orders := db.orders ++ [ord]
            orderItems := db.orderItems ++ rows },
          ord)

/-- `OrderService.updateOrder`: not-found check; when `items` is present,
run the batched existence check, then one transaction deleting the old
items, inserting the new set, and setting `note` to `data.note ?? null` —
the note is overwritten even when absent from the payload. When `items`
is absent, only the note is written (again as `data.note ?? null`). -/
def serviceUpdateOrder (db : DB) (i : String)
    (data : RawUpdateOrder) : Except ApiError (DB × Order) :=
  match db.orders.find? fun o => o.id == i with
  | none => Except.error (ApiError.notFoundError "Order not found")
  | some existing =>
    match data.items with
    | some its =>
      let productIds := its.map fun it => it.productId
      let products := findProductsByIds db productIds
      if !(products.length == productIds.length) then
        Except.error (ApiError.validationError "Some products not found")
      else
        let db1 : DB :=
          { db with orderItems := db.orderItems.filter fun oi => !(oi.orderId == i) }
        let rows := its.map (mkOrderItem i)
        if !fkOrderItemsOk db rows then
          Except.error (ApiError.persistenceError "Foreign key constraint violated")
        else
          let ord : Order := { existing with note := data.note }
          Except.ok
            ({ db1 with
                orders := db1.orders.map fun o => if o.id == i then ord else o
                orderItems := db1.orderItems ++ rows },
              ord)
    | none =>
      let ord : Order := { existing with note := data.note }
      Except.ok
        ({ db with orders := db.orders.map fun o => if o.id == i then ord else o },
          ord)

/-! ## Observable-state wrappers

The database state after an operation: the new state on success, the
original state on any error (transactions roll back fully, and every check
precedes every write). -/

/-- State after `POST /orders`. -/
def applyRouteCreateOrder (db : DB) (freshId : String) (r : RawCreateOrder) : DB :=
  match routeCreateOrder db freshId r with
  | Except.ok (db', _) => db'
  | Except.error _ => db

/-- State after `OrderService.createOrder`. -/
def applyServiceCreateOrder (db : DB) (freshId : String) (r : RawCreateOrder) : DB :=
  match serviceCreateOrder db freshId r with
  | Except.ok (db', _) => db'
  | Except.error _ => db

/-- State after `PUT /orders/:id`. -/
def applyRouteUpdateOrder (db : DB) (i : String) (r : RawUpdateOrder) : DB :=
  match routeUpdateOrder db i r with
  | Except.ok (db', _) => db'
  | Except.error _ => db

/-- State after `OrderService.updateOrder`. -/
def applyServiceUpdateOrder (db : DB) (i : String) (r : RawUpdateOrder) : DB :=
  match serviceUpdateOrder db i r with
  | Except.ok (db', _) => db'
  | Except.error _ => db

/-- State after `POST /products`. -/
def applyRouteCreateProduct (db : DB) (freshId : String) (r : RawCreateProduct) : DB :=
  match routeCreateProduct db freshId r with
  | Except.ok (db', _) => db'
  | Except.error _ => db

/-- State after `ProductService.createProduct`. -/
def applyServiceCreateProduct (db : DB) (freshId : String) (r : CreateProductRequest) : DB :=
  match serviceCreateProduct db freshId r with
  | Except.ok (db', _) => db'
  | Except.error _ => db

/-- State after `DELETE /products/:id`. -/
def applyRouteDeleteProduct (db : DB) (i : String) : DB :=
  match routeDeleteProduct db i with
  | Except.ok db' => db'
  | Except.error _ => db

/-- State after `ProductService.deleteProduct`. -/
def applyServiceDeleteProduct (db : DB) (i : String) : DB :=
  match serviceDeleteProduct db i with
  | Except.ok db' => db'
  | Except.error _ => db

/-! ## Operation sequences over the product table

For the sequence-level barcode-uniqueness invariant, a step is either a
`POST /products` or a `PUT /products/:id` call; a failed call leaves the
state unchanged. The gateway guarantees freshness of the synthetic id it
generates for a create, recorded by `opFresh`. -/

/-- One product mutation: a create (with its gateway-generated id) or an
update. -/
inductive ProductOp where
  | create (freshId : String) (r : RawCreateProduct)
  | update (i : String) (r : RawUpdateProduct)

/-- Execute one mutation; an error leaves the state unchanged. -/
def applyProductOp (db : DB) : ProductOp → DB
  | ProductOp.create fid r =>
    match routeCreateProduct db fid r with
    | Except.ok (db', _) => db'
    | Except.error _ => db
  | ProductOp.update i r =>
    match routeUpdateProduct db i r with
    | Except.ok (db', _) => db'
    | Except.error _ => db

/-- The gateway's guarantee for a create: the generated id is fresh in the
current state. Updates need no side condition. -/
def opFresh (db : DB) : ProductOp → Bool
  | ProductOp.create fid _ => db.products.all fun p => !(p.id == fid)
  | ProductOp.update _ _ => true

/-- A sequence of mutations in which every create receives a fresh id at
the moment it executes. -/
def goodSeq (db : DB) : List ProductOp → Bool
  | [] => true
  | op :: rest => opFresh db op && goodSeq (applyProductOp db op) rest

/-- Execute a sequence of mutations. -/
def runOps (db : DB) (ops : List ProductOp) : DB :=
  ops.foldl applyProductOp db

/-! ## Concrete fixtures for witnesses and counterexamples -/

/-- A stored product. -/
def pCoke : Product :=
  { id := "p1", name := "Coke", barcode := "COKE-001", costPrice := 20,
    sellPrice := 25, vendors := ["01"], imagePath := none,
    status := ProductStatus.ACTIVE, tags := [], note := none,
    isOrdered := false }

/-- A second stored product. -/
def pTea : Product :=
  { id := "p2", name := "Tea", barcode := "TEA-001", costPrice := 10,
    sellPrice := 15, vendors := [], imagePath := none,
    status := ProductStatus.ACTIVE, tags := [], note := none,
    isOrdered := false }

/-- A stored order with a note. -/
def oKeep : Order := { id := "o1", note := some "keep" }

/-- A stored order item of `oKeep` referencing `pCoke`. -/
def itemCoke : OrderItem := { orderId := "o1", productId := "p1", quantity := 2 }

/-- A state with one product and nothing else. -/
def dbOneProduct : DB := { products := [pCoke], orders := [], orderItems := [] }

/-- A state with two products, an order, and one item referencing `pCoke`. -/
def dbWithOrder : DB :=
  { products := [pCoke, pTea], orders := [oKeep], orderItems := [itemCoke] }

/-- A submitted order item referencing the stored product. -/
def riCoke1 : RawOrderItem := { productId := "p1", quantity := 1 }

/-- A submitted order item referencing no stored product. -/
def riGhost1 : RawOrderItem := { productId := "ghost", quantity := 1 }

/-- A create-order body referencing a missing product. -/
def reqGhost : RawCreateOrder := { note := none, items := [riGhost1] }

/-- A valid create-order body with one item. -/
def reqCoke1 : RawCreateOrder := { note := none, items := [riCoke1] }

/-- A create-order body whose two items repeat the same productId. -/
def reqDup : RawCreateOrder :=
  { note := none, items := [riCoke1, { productId := "p1", quantity := 2 }] }

/-- A create-order body with a non-integral quantity. -/
def reqHalf : RawCreateOrder :=
  { note := none, items := [{ productId := "p1", quantity := mkRat 3 2 }] }

/-- An update-order body supplying items but no note. -/
def updCokeNoNote : RawUpdateOrder := { note := none, items := some [riCoke1] }

/-- An update-order body whose item references no stored product. -/
def updGhost : RawUpdateOrder := { note := none, items := some [riGhost1] }

/-- The order `oKeep` with its note overwritten to NULL. -/
def oNoNote : Order := { id := "o1", note := none }

/-- State after the route-level item replacement on `dbWithOrder`. -/
def dbC2route : DB :=
  { products := [pCoke, pTea], orders := [oKeep],
    orderItems := [{ orderId := "o1", productId := "p1", quantity := 1 }] }

/-- State after the service-level item replacement on `dbWithOrder`. -/
def dbC2serv : DB :=
  { products := [pCoke, pTea], orders := [oNoNote],
    orderItems := [{ orderId := "o1", productId := "p1", quantity := 1 }] }

/-- A route update payload defining only `sellPrice`. -/
def updSell30 : RawUpdateProduct :=
  { name := none, barcode := none, costPrice := none, sellPrice := some 30,
    vendorIds := none, imagePath := none, status := none, tags := none,
    note := none }

/-- A service update payload defining only `sellPrice`. -/
def servUpdSell30 : UpdateProductRequest :=
  { name := none, barcode := none, costPrice := none, sellPrice := some 30,
    vendors := none, imagePath := none, status := none, isOrdered := none,
    tags := none, note := none }

/-- `pCoke` with only its sellPrice changed. -/
def pCokeSell30 : Product := { pCoke with sellPrice := 30 }

/-- A route create-product body whose vendor id is outside the registry. -/
def prodVendor99 : RawCreateProduct :=
  { name := "Juice", barcode := "JUICE-001", costPrice := 5, sellPrice := 8,
    vendorIds := ["99"], imagePath := none, status := ProductStatus.ACTIVE,
    tags := [], note := none }

/-- The row the route stores for `prodVendor99`. -/
def pVendor99 : Product := mkRouteProduct "p9" prodVendor99

/-- A service create-product body whose vendor id is outside the registry. -/
def servReqVendor99 : CreateProductRequest :=
  { name := "Juice", barcode := "JUICE-001", costPrice := 5, sellPrice := 8,
    vendors := some ["99"], imagePath := none, tags := none, note := none }

/-- A create-product body repeating the stored barcode. -/
def prodDupBarcode : RawCreateProduct :=
  { name := "Coke2", barcode := "COKE-001", costPrice := 1, sellPrice := 2,
    vendorIds := [], imagePath := none, status := ProductStatus.ACTIVE,
    tags := [], note := none }

/-- A create-product body with a fresh barcode. -/
def prodNew : RawCreateProduct :=
  { name := "Water", barcode := "WATER-001", costPrice := 1, sellPrice := 2,
    vendorIds := [], imagePath := none, status := ProductStatus.ACTIVE,
    tags := [], note := none }

/-- A freshly created order with no note. -/
def ordO9 : Order := { id := "o9", note := none }

/-- State after `OrderService.createOrder` of `reqCoke1` on `dbOneProduct`:
the product's flag is untouched. -/
def dbC8 : DB :=
  { products := [pCoke], orders := [ordO9],
    orderItems := [{ orderId := "o9", productId := "p1", quantity := 1 }] }

/-- `pCoke` with its `isOrdered` flag set. -/
def pCokeOrdered : Product := { pCoke with isOrdered := true }

/-- State after `POST /orders` of `reqHalf` on `dbOneProduct`. -/
def dbC9 : DB :=
  { products := [pCokeOrdered], orders := [ordO9],
    orderItems := [{ orderId := "o9", productId := "p1", quantity := mkRat 3 2 }] }

/-- A two-step create/update sequence. -/
def opsC5 : List ProductOp :=
  [ProductOp.create "p7" prodNew, ProductOp.update "p7" updSell30]

/-- The sparse-update contract claimed for `PUT /products/:id`: every
field absent from the payload retains its pre-call value, the id and the
(schema-absent) `isOrdered` flag are kept, and a present `sellPrice` is
applied. -/
def RouteSparse (old p' : Product) (r : RawUpdateProduct) : Prop :=
  (r.name = none → p'.name = old.name) ∧
  (r.barcode = none → p'.barcode = old.barcode) ∧
  (r.costPrice = none → p'.costPrice = old.costPrice) ∧
  (r.sellPrice = none → p'.sellPrice = old.sellPrice) ∧
  (r.vendorIds = none → p'.vendors = old.vendors) ∧
  (r.imagePath = none → p'.imagePath = old.imagePath) ∧
  (r.status = none → p'.status = old.status) ∧
  (r.tags = none → p'.tags = old.tags) ∧
  (r.note = none → p'.note = old.note) ∧
  p'.isOrdered = old.isOrdered ∧
  p'.id = old.id ∧
  (∀ v, r.sellPrice = some v → p'.sellPrice = v)

/-- The sparse-update contract claimed for
`ProductService.updateProduct`: every field absent from the payload
retains its pre-call value, the id is kept, and a present `sellPrice` is
applied. -/
def ServiceSparse (old p' : Product) (data : UpdateProductRequest) : Prop :=
  (data.name = none → p'.name = old.name) ∧
  (data.barcode = none → p'.barcode = old.barcode) ∧
  (data.costPrice = none → p'.costPrice = old.costPrice) ∧
  (data.sellPrice = none → p'.sellPrice = old.sellPrice) ∧
  (data.vendors = none → p'.vendors = old.vendors) ∧
  (data.imagePath = none → p'.imagePath = old.imagePath) ∧
  (data.status = none → p'.status = old.status) ∧
  (data.isOrdered = none → p'.isOrdered = old.isOrdered) ∧
  (data.tags = none → p'.tags = old.tags) ∧
  (data.note = none → p'.note = old.note) ∧
  p'.id = old.id ∧
  (∀ v, data.sellPrice = some v → p'.sellPrice = v)

/-- A service create-product body with no vendor list. -/
def servReqWater : CreateProductRequest :=
  { name := "Water", barcode := "WATER-001", costPrice := 1, sellPrice := 2,
    vendors := none, imagePath := none, tags := none, note := none }

/-! ## Helper lemmas -/

/-- A string accepted by `z.string().min(1)` is not the empty string. -/
theorem ne_empty_of_one_le_length {s : String} (h : 1 ≤ s.length) : s ≠ "" := by
  intro hs
  subst hs
  exact absurd h (by decide)

/-- The ids of a batched product lookup are pairwise distinct. -/
theorem filtered_ids_nodup (prods : List Product) (pids : List String)
    (h : (prods.map fun p => p.id).Nodup) :
    ((prods.filter fun p => pids.contains p.id).map fun p => p.id).Nodup :=
  h.sublist ((List.filter_sublist prods).map fun p => p.id)

/-- Every id of a batched product lookup occurs in the requested id list. -/
theorem filtered_ids_subset (prods : List Product) (pids : List String) :
    ∀ x ∈ (prods.filter fun p => pids.contains p.id).map fun p => p.id,
      x ∈ pids := by
  intro x hx
  obtain ⟨p, hp, rfl⟩ := List.mem_map.mp hx
  have := (List.mem_filter.mp hp).2
  simpa using this

/-- The batched lookup returns at most one row per distinct requested id. -/
theorem length_filter_le_dedup (prods : List Product) (pids : List String)
    (h : (prods.map fun p => p.id).Nodup) :
    (prods.filter fun p => pids.contains p.id).length ≤ pids.dedup.length := by
  have h1 := filtered_ids_nodup prods pids h
  have h2 : ((prods.filter fun p => pids.contains p.id).map fun p => p.id) ⊆ pids.dedup :=
    fun x hx => List.mem_dedup.mpr (filtered_ids_subset prods pids x hx)
  have h3 := (h1.subperm h2).length_le
  simpa using h3

/-- When some requested id resolves to no product, the batched lookup
returns strictly fewer rows than the raw id list has entries. -/
theorem length_filter_lt_of_missing (prods : List Product) (pids : List String)
    (m : String) (h : (prods.map fun p => p.id).Nodup)
    (hm : m ∈ pids) (hmiss : ∀ p ∈ prods, p.id ≠ m) :
    (prods.filter fun p => pids.contains p.id).length < pids.length := by
  have h1 := filtered_ids_nodup prods pids h
  have h2 : ((prods.filter fun p => pids.contains p.id).map fun p => p.id) ⊆
      pids.dedup.erase m := by
    intro x hx
    obtain ⟨p, hp, rfl⟩ := List.mem_map.mp hx
    have hxm : p.id ≠ m := hmiss p (List.mem_filter.mp hp).1
    refine (List.mem_erase_of_ne hxm).mpr ?_
    exact List.mem_dedup.mpr (filtered_ids_subset prods pids p.id hx)
  have h3 := (h1.subperm h2).length_le
  have h4 : (pids.dedup.erase m).length = pids.dedup.length - 1 :=
    List.length_erase_of_mem (List.mem_dedup.mpr hm)
  have h5 : pids.dedup.length ≤ pids.length := (List.dedup_sublist pids).length_le
  have h6 : 0 < pids.dedup.length := List.length_pos_of_mem (List.mem_dedup.mpr hm)
  simp only [List.length_map] at h3
  omega

/-- When the raw id list repeats an id, the batched lookup returns strictly
fewer rows than the raw list has entries, even if every id resolves. -/
theorem length_filter_lt_of_dup (prods : List Product) (pids : List String)
    (h : (prods.map fun p => p.id).Nodup) (hdup : ¬ pids.Nodup) :
    (prods.filter fun p => pids.contains p.id).length < pids.length := by
  have hle := length_filter_le_dedup prods pids h
  have hne : pids.dedup ≠ pids := fun he => hdup (List.dedup_eq_self.mp he)
  have hsub := List.dedup_sublist pids
  have hl := hsub.length_le
  cases Nat.eq_or_lt_of_le hl with
  | inl he => exact absurd (hsub.eq_of_length he) hne
  | inr hlt => omega

/-- Replacing, in a list of products with pairwise-distinct ids, the unique
product found under id `i` by a product `p'` preserves `Nodup` of any
projection `g`, provided `p'` either agrees with the replaced product on
`g` or is `g`-fresh for the whole list. -/
theorem replace_map_nodup {β : Type} (g : Product → β)
    (l : List Product) (i : String) (p' : Product) (existing : Product)
    (hid : (l.map fun p => p.id).Nodup)
    (hg : (l.map g).Nodup)
    (hfind : l.find? (fun p => p.id == i) = some existing)
    (hb : g p' = g existing ∨ ∀ q ∈ l, g q ≠ g p') :
    ((l.map fun q => if q.id == i then p' else q).map g).Nodup := by
  induction l with
  | nil => simp at hfind
  | cons a t ih =>
    simp only [List.map_cons, List.nodup_cons] at hid hg
    obtain ⟨haid, hidT⟩ := hid
    obtain ⟨hag, hgT⟩ := hg
    by_cases hai : a.id = i
    · have hea : existing = a := by
        rw [List.find?_cons_of_pos] at hfind
        · exact (Option.some_inj.mp hfind).symm
        · simp [hai]
      have htid : ∀ q ∈ t, (if q.id == i then p' else q) = q := by
        intro q hq
        have hqi : q.id ≠ i := by
          intro he
          exact haid (List.mem_map.mpr ⟨q, hq, by rw [he, hai]⟩)
        simp [hqi]
      have heq : ((a :: t).map fun q => if q.id == i then p' else q) = p' :: t := by
        rw [List.map_cons, List.map_congr_left htid]
        simp [hai]
      rw [heq, List.map_cons, List.nodup_cons]
      refine ⟨?_, hgT⟩
      cases hb with
      | inl h1 =>
        rw [h1, hea]
        exact hag
      | inr h2 =>
        intro hmem
        obtain ⟨q, hq, hgq⟩ := List.mem_map.mp hmem
        exact h2 q (List.mem_cons_of_mem a hq) hgq
    · have hfindT : t.find? (fun p => p.id == i) = some existing := by
        rw [List.find?_cons_of_neg] at hfind
        · exact hfind
        · simp [hai]
      have hbT : g p' = g existing ∨ ∀ q ∈ t, g q ≠ g p' := by
        cases hb with
        | inl h1 => exact Or.inl h1
        | inr h2 => exact Or.inr fun q hq => h2 q (List.mem_cons_of_mem a hq)
      have hrec := ih hidT hgT hfindT hbT
      have hfa : (if a.id == i then p' else a) = a := by simp [hai]
      rw [List.map_cons, hfa, List.map_cons, List.nodup_cons]
      refine ⟨?_, hrec⟩
      intro hmem
      obtain ⟨x, hx, hgx⟩ := List.mem_map.mp hmem
      obtain ⟨q, hq, rfl⟩ := List.mem_map.mp hx
      by_cases hqi : q.id = i
      · have hxp : (if q.id == i then p' else q) = p' := by simp [hqi]
        rw [hxp] at hgx
        cases hb with
        | inl h1 =>
          have hexmem : existing ∈ t := List.mem_of_find?_eq_some hfindT
          exact hag (List.mem_map.mpr ⟨existing, hexmem, by rw [← h1, hgx]⟩)
        | inr h2 => exact h2 a (List.mem_cons_self a t) hgx.symm
      · have hxq : (if q.id == i then p' else q) = q := by simp [hqi]
        rw [hxq] at hgx
        exact hag (List.mem_map.mpr ⟨q, hq, hgx⟩)

/-- Inversion of a successful `POST /products`: the zod checks passed, no
stored product carries the submitted barcode, and the result is exactly
the appended row. -/
theorem routeCreateProduct_ok (db : DB) (fid : String) (r : RawCreateProduct)
    (db' : DB) (p : Product)
    (h : routeCreateProduct db fid r = Except.ok (db', p)) :
    createProductValid r = true ∧
    findProductByBarcode db r.barcode = none ∧
    p = mkRouteProduct fid r ∧
    db' = { db with products := db.products ++ [mkRouteProduct fid r] } := by
  unfold routeCreateProduct at h
  split at h
  · simp at h
  · next hv =>
    split at h
    · simp at h
    · next hbc =>
      simp only [Except.ok.injEq, Prod.mk.injEq] at h
      refine ⟨by simpa using hv, hbc, h.2.symm, h.1.symm⟩

/-- Inversion of a successful `ProductService.createProduct`: no stored
product carries the submitted barcode, the vendor check passed, and the
result is exactly the appended row. -/
theorem serviceCreateProduct_ok (db : DB) (fid : String)
    (data : CreateProductRequest) (db' : DB) (p : Product)
    (h : serviceCreateProduct db fid data = Except.ok (db', p)) :
    findProductByBarcode db data.barcode = none ∧
    vendorsInvalid data.vendors = false ∧
    p = mkServiceProduct fid data ∧
    db' = { db with products := db.products ++ [mkServiceProduct fid data] } := by
  unfold serviceCreateProduct at h
  split at h
  · simp at h
  · next hbc =>
    split at h
    · simp at h
    · next hv =>
      simp only [Except.ok.injEq, Prod.mk.injEq] at h
      refine ⟨hbc, by simpa using hv, h.2.symm, h.1.symm⟩

/-- Inversion of a successful `PUT /products/:id` against the stored row:
the zod checks passed, the barcode-conflict check passed, and the result
is exactly the sparse patch of the stored row, written back in place. -/
theorem routeUpdateProduct_ok (db : DB) (i : String) (r : RawUpdateProduct)
    (db' : DB) (p' : Product) (old : Product)
    (hold : findProductById db i = some old)
    (h : routeUpdateProduct db i r = Except.ok (db', p')) :
    updateProductValid r = true ∧
    barcodeConflict db old r.barcode = false ∧
    p' = routePatch old r ∧
    db' = { db with
             products := db.products.map fun q =>
               if q.id == i then routePatch old r else q } := by
  unfold routeUpdateProduct at h
  split at h
  · simp at h
  · next hv =>
    split at h
    · simp at h
    · next existing heq =>
      rw [hold] at heq
      injection heq with hex
      subst hex
      split at h
      · simp at h
      · next hconf =>
        simp only [Except.ok.injEq, Prod.mk.injEq] at h
        exact ⟨by simpa using hv, by simpa using hconf, h.2.symm, h.1.symm⟩

/-- Inversion of a successful `ProductService.updateProduct` against the
stored row: the barcode-conflict and vendor checks passed, and the result
is exactly the sparse patch of the stored row, written back in place. -/
theorem serviceUpdateProduct_ok (db : DB) (i : String)
    (data : UpdateProductRequest) (db' : DB) (p' : Product) (old : Product)
    (hold : findProductById db i = some old)
    (h : serviceUpdateProduct db i data = Except.ok (db', p')) :
    barcodeConflict db old data.barcode = false ∧
    vendorsInvalid data.vendors = false ∧
    p' = servicePatch old data ∧
    db' = { db with
             products := db.products.map fun q =>
               if q.id == i then servicePatch old data else q } := by
  unfold serviceUpdateProduct at h
  split at h
  · simp at h
  · next existing heq =>
    rw [hold] at heq
    injection heq with hex
    subst hex
    split at h
    · simp at h
    · next hconf =>
      split at h
      · simp at h
      · next hv =>
        simp only [Except.ok.injEq, Prod.mk.injEq] at h
        exact ⟨by simpa using hconf, by simpa using hv, h.2.symm, h.1.symm⟩

/-- Inversion of a successful `POST /orders`: the zod checks passed, the
batched lookup returned as many rows as submitted ids, and the result is
exactly the appended order, its items, and the `isOrdered := true` sweep
over the referenced products. -/
theorem routeCreateOrder_ok (db : DB) (fid : String) (r : RawCreateOrder)
    (db' : DB) (ord : Order)
    (h : routeCreateOrder db fid r = Except.ok (db', ord)) :
    createOrderValid r = true ∧
    ord = { id := fid, note := jsOrNull r.note } ∧
    db' = { products := db.products.map fun p =>
              if (r.items.map fun it => it.productId).contains p.id then
                { p with isOrdered := true }
              else p
            orders := db.orders ++ [{ id := fid, note := jsOrNull r.note }]
            orderItems := db.orderItems ++ r.items.map (mkOrderItem fid) } := by
  unfold routeCreateOrder at h
  split at h
  · simp at h
  · next hv =>
    dsimp only at h
    split at h
    · simp at h
    · split at h
      · simp at h
      · simp only [Except.ok.injEq, Prod.mk.injEq] at h
        exact ⟨by simpa using hv, h.2.symm, h.1.symm⟩

/-- Inversion of a successful `OrderService.createOrder`: the batched
lookup returned as many rows as submitted ids, the products table is
untouched, and the result is exactly the appended order and its items. -/
theorem serviceCreateOrder_ok (db : DB) (fid : String) (r : RawCreateOrder)
    (db' : DB) (ord : Order)
    (h : serviceCreateOrder db fid r = Except.ok (db', ord)) :
    ord = { id := fid, note := r.note } ∧
    db' = { products := db.products
            orders := db.orders ++ [{ id := fid, note := r.note }]
            orderItems := db.orderItems ++ r.items.map (mkOrderItem fid) } := by
  unfold serviceCreateOrder at h
  dsimp only at h
  split at h
  · simp at h
  · split at h
    · simp at h
    · simp only [Except.ok.injEq, Prod.mk.injEq] at h
      exact ⟨h.2.symm, h.1.symm⟩

/-- Inversion of a successful `PUT /orders/:id` whose payload contains
`items`: the zod checks passed, the gateway's referential enforcement
accepted every submitted productId, and the result is exactly: the
order's old items deleted, the new set inserted, and the note patched
only when present. The products table is untouched. -/
theorem routeUpdateOrder_ok_items (db : DB) (i : String) (r : RawUpdateOrder)
    (its : List RawOrderItem) (db' : DB) (ord : Order) (existing : Order)
    (hits : r.items = some its)
    (hord : (db.orders.find? fun o => o.id == i) = some existing)
    (h : routeUpdateOrder db i r = Except.ok (db', ord)) :
    updateOrderValid r = true ∧
    fkOrderItemsOk db (its.map (mkOrderItem i)) = true ∧
    ord = { existing with note := routeOrderNote existing r.note } ∧
    db' = { products := db.products
            orders := db.orders.map fun o =>
              if o.id == i then { existing with note := routeOrderNote existing r.note } else o
            orderItems :=
              (db.orderItems.filter fun oi => !(oi.orderId == i)) ++
                its.map (mkOrderItem i) } := by
  unfold routeUpdateOrder at h
  split at h
  · simp at h
  · next hv =>
    split at h
    · simp at h
    · next existing' heq =>
      rw [hord] at heq
      injection heq with hex
      subst hex
      dsimp only at h
      rw [hits] at h
      dsimp only at h
      split at h
      · simp at h
      · next db2 hfk =>
        split at hfk
        · simp at hfk
        · next hfkcond =>
          injection hfk with hdb2
          subst hdb2
          simp only [Except.ok.injEq, Prod.mk.injEq] at h
          refine ⟨by simpa using hv, by simpa using hfkcond, h.2.symm, ?_⟩
          rw [← h.1]

/-- Inversion of a successful `OrderService.updateOrder` whose payload
contains `items`: the batched lookup returned as many rows as submitted
ids, and the result is exactly: the old items deleted, the new set
inserted, and the note overwritten with the payload note (absent note
becomes NULL). The products table is untouched. -/
theorem serviceUpdateOrder_ok_items (db : DB) (i : String) (r : RawUpdateOrder)
    (its : List RawOrderItem) (db' : DB) (ord : Order) (existing : Order)
    (hits : r.items = some its)
    (hord : (db.orders.find? fun o => o.id == i) = some existing)
    (h : serviceUpdateOrder db i r = Except.ok (db', ord)) :
    (findProductsByIds db (its.map fun it => it.productId)).length
      = (its.map fun it => it.productId).length ∧
    ord = { existing with note := r.note } ∧
    db' = { products := db.products
            orders := db.orders.map fun o =>
              if o.id == i then { existing with note := r.note } else o
            orderItems :=
              (db.orderItems.filter fun oi => !(oi.orderId == i)) ++
                its.map (mkOrderItem i) } := by
  unfold serviceUpdateOrder at h
  split at h
  · simp at h
  · next existing' heq =>
    rw [hord] at heq
    injection heq with hex
    subst hex
    rw [hits] at h
    dsimp only at h
    split at h
    · simp at h
    · next hlen =>
      split at h
      · simp at h
      · simp only [Except.ok.injEq, Prod.mk.injEq] at h
        refine ⟨by simpa using hlen, h.2.symm, ?_⟩
        rw [← h.1]

/-- The batched lookup is short when some requested id is missing. -/
theorem findProductsByIds_lt_missing (db : DB) (pids : List String) (m : String)
    (hwf : IdsUnique db) (hm : m ∈ pids) (hmiss : ∀ p ∈ db.products, p.id ≠ m) :
    (findProductsByIds db pids).length < pids.length :=
  length_filter_lt_of_missing db.products pids m hwf hm hmiss

/-- The batched lookup is short when the requested ids repeat. -/
theorem findProductsByIds_lt_dup (db : DB) (pids : List String)
    (hwf : IdsUnique db) (hdup : ¬ pids.Nodup) :
    (findProductsByIds db pids).length < pids.length :=
  length_filter_lt_of_dup db.products pids hwf hdup

/-- `POST /orders` rejects a valid payload referencing a missing product
with the "some products not found" validation error. -/
theorem routeCreateOrder_missing (db : DB) (fid : String) (r : RawCreateOrder)
    (m : String) (hwf : IdsUnique db) (hv : createOrderValid r = true)
    (hm : m ∈ r.items.map fun it => it.productId)
    (hmiss : ∀ p ∈ db.products, p.id ≠ m) :
    routeCreateOrder db fid r
      = Except.error (ApiError.validationError "部分產品不存在") := by
  have hlt := findProductsByIds_lt_missing db _ m hwf hm hmiss
  have hne : (findProductsByIds db (r.items.map fun it => it.productId)).length
      ≠ r.items.length := by
    simp only [List.length_map] at hlt
    omega
  unfold routeCreateOrder
  simp [hv, hne]

/-- `OrderService.createOrder` rejects a payload referencing a missing
product with the "Some products not found" validation error. -/
theorem serviceCreateOrder_missing (db : DB) (fid : String) (r : RawCreateOrder)
    (m : String) (hwf : IdsUnique db)
    (hm : m ∈ r.items.map fun it => it.productId)
    (hmiss : ∀ p ∈ db.products, p.id ≠ m) :
    serviceCreateOrder db fid r
      = Except.error (ApiError.validationError "Some products not found") := by
  have hlt := findProductsByIds_lt_missing db _ m hwf hm hmiss
  have hne : (findProductsByIds db (r.items.map fun it => it.productId)).length
      ≠ r.items.length := by
    simp only [List.length_map] at hlt
    omega
  unfold serviceCreateOrder
  simp [hne]

/-- `POST /orders` rejects a valid payload whose items repeat a productId,
with the same "some products not found" validation error. -/
theorem routeCreateOrder_dup (db : DB) (fid : String) (r : RawCreateOrder)
    (hwf : IdsUnique db) (hv : createOrderValid r = true)
    (hdup : ¬ (r.items.map fun it => it.productId).Nodup) :
    routeCreateOrder db fid r
      = Except.error (ApiError.validationError "部分產品不存在") := by
  have hlt := findProductsByIds_lt_dup db _ hwf hdup
  have hne : (findProductsByIds db (r.items.map fun it => it.productId)).length
      ≠ r.items.length := by
    simp only [List.length_map] at hlt
    omega
  unfold routeCreateOrder
  simp [hv, hne]

/-- `OrderService.createOrder` rejects a payload whose items repeat a
productId. -/
theorem serviceCreateOrder_dup (db : DB) (fid : String) (r : RawCreateOrder)
    (hwf : IdsUnique db)
    (hdup : ¬ (r.items.map fun it => it.productId).Nodup) :
    serviceCreateOrder db fid r
      = Except.error (ApiError.validationError "Some products not found") := by
  have hlt := findProductsByIds_lt_dup db _ hwf hdup
  have hne : (findProductsByIds db (r.items.map fun it => it.productId)).length
      ≠ r.items.length := by
    simp only [List.length_map] at hlt
    omega
  unfold serviceCreateOrder
  simp [hne]

/-- `OrderService.updateOrder` rejects an item set referencing a missing
product with the "Some products not found" validation error, before any
write. -/
theorem serviceUpdateOrder_missing (db : DB) (i : String) (r : RawUpdateOrder)
    (its : List RawOrderItem) (existing : Order) (m : String)
    (hwf : IdsUnique db) (hits : r.items = some its)
    (hord : (db.orders.find? fun o => o.id == i) = some existing)
    (hm : m ∈ its.map fun it => it.productId)
    (hmiss : ∀ p ∈ db.products, p.id ≠ m) :
    serviceUpdateOrder db i r
      = Except.error (ApiError.validationError "Some products not found") := by
  have hlt := findProductsByIds_lt_missing db _ m hwf hm hmiss
  have hne : (findProductsByIds db (its.map fun it => it.productId)).length
      ≠ its.length := by
    simp only [List.length_map] at hlt
    omega
  unfold serviceUpdateOrder
  simp [hord, hits, hne]

/-- `OrderService.updateOrder` rejects an item set that repeats a
productId. -/
theorem serviceUpdateOrder_dup (db : DB) (i : String) (r : RawUpdateOrder)
    (its : List RawOrderItem) (existing : Order)
    (hwf : IdsUnique db) (hits : r.items = some its)
    (hord : (db.orders.find? fun o => o.id == i) = some existing)
    (hdup : ¬ (its.map fun it => it.productId).Nodup) :
    serviceUpdateOrder db i r
      = Except.error (ApiError.validationError "Some products not found") := by
  have hlt := findProductsByIds_lt_dup db _ hwf hdup
  have hne : (findProductsByIds db (its.map fun it => it.productId)).length
      ≠ its.length := by
    simp only [List.length_map] at hlt
    omega
  unfold serviceUpdateOrder
  simp [hord, hits, hne]

/-- `PUT /orders/:id` with an item set referencing a missing product does
not pre-validate: the write reaches the gateway, whose referential
enforcement rejects it, surfacing as the 500 persistence error. -/
theorem routeUpdateOrder_missing (db : DB) (i : String) (r : RawUpdateOrder)
    (its : List RawOrderItem) (existing : Order) (m : String)
    (hv : updateOrderValid r = true) (hits : r.items = some its)
    (hord : (db.orders.find? fun o => o.id == i) = some existing)
    (hm : m ∈ its.map fun it => it.productId)
    (hmiss : ∀ p ∈ db.products, p.id ≠ m) :
    routeUpdateOrder db i r
      = Except.error (ApiError.persistenceError "更新訂單失敗") := by
  obtain ⟨it0, hit0, hpid⟩ := List.mem_map.mp hm
  have hfk : fkOrderItemsOk db (its.map (mkOrderItem i)) = false := by
    rw [fkOrderItemsOk, List.all_eq_false]
    refine ⟨mkOrderItem i it0, List.mem_map_of_mem _ hit0, ?_⟩
    simp only [mkOrderItem, List.any_eq_true, not_exists, not_and]
    intro p hp
    have := hmiss p hp
    rw [← hpid] at this
    simp [this]
  unfold routeUpdateOrder
  simp [hv, hord, hits, hfk]

/-- A create step preserves distinct ids and distinct barcodes, given the
gateway's fresh-id guarantee. -/
theorem applyCreate_inv (db : DB) (fid : String) (r : RawCreateProduct)
    (hid : IdsUnique db) (hbc : BarcodesUnique db)
    (hfresh : (db.products.all fun p => !(p.id == fid)) = true) :
    IdsUnique (applyProductOp db (ProductOp.create fid r)) ∧
    BarcodesUnique (applyProductOp db (ProductOp.create fid r)) := by
  cases hres : routeCreateProduct db fid r with
  | error e =>
    have happ : applyProductOp db (ProductOp.create fid r) = db := by
      simp only [applyProductOp]
      rw [hres]
    rw [happ]
    exact ⟨hid, hbc⟩
  | ok pr =>
    obtain ⟨db', p⟩ := pr
    have happ : applyProductOp db (ProductOp.create fid r) = db' := by
      simp only [applyProductOp]
      rw [hres]
    obtain ⟨hv, hfind, hp, hdb⟩ := routeCreateProduct_ok db fid r db' p hres
    rw [happ, hdb]
    have hfr : ∀ q ∈ db.products, q.id ≠ fid := by
      intro q hq
      have := (List.all_eq_true.mp hfresh) q hq
      simpa using this
    have hbcnone : ∀ q ∈ db.products, q.barcode ≠ r.barcode := by
      intro q hq
      have hfind' : db.products.find? (fun x => x.barcode == r.barcode) = none := hfind
      have := List.find?_eq_none.mp hfind' q hq
      simpa using this
    constructor
    · show ((db.products ++ [mkRouteProduct fid r]).map fun x => x.id).Nodup
      rw [List.map_append, List.nodup_append]
      refine ⟨hid, by simp, ?_⟩
      intro a ha hb
      simp only [List.map_cons, List.map_nil, List.mem_singleton] at hb
      obtain ⟨q, hq, rfl⟩ := List.mem_map.mp ha
      exact hfr q hq (by simpa [mkRouteProduct] using hb)
    · show ((db.products ++ [mkRouteProduct fid r]).map fun x => x.barcode).Nodup
      rw [List.map_append, List.nodup_append]
      refine ⟨hbc, by simp, ?_⟩
      intro a ha hb
      simp only [List.map_cons, List.map_nil, List.mem_singleton] at hb
      obtain ⟨q, hq, rfl⟩ := List.mem_map.mp ha
      exact hbcnone q hq (by simpa [mkRouteProduct] using hb)

/-- An update step preserves distinct ids and distinct barcodes: either the
barcode is unchanged, or the new value passed the duplicate check against
the whole table. -/
theorem applyUpdate_inv (db : DB) (i : String) (r : RawUpdateProduct)
    (hid : IdsUnique db) (hbc : BarcodesUnique db) :
    IdsUnique (applyProductOp db (ProductOp.update i r)) ∧
    BarcodesUnique (applyProductOp db (ProductOp.update i r)) := by
  cases hres : routeUpdateProduct db i r with
  | error e =>
    have happ : applyProductOp db (ProductOp.update i r) = db := by
      simp only [applyProductOp]
      rw [hres]
    rw [happ]
    exact ⟨hid, hbc⟩
  | ok pr =>
    obtain ⟨db', p'⟩ := pr
    have happ : applyProductOp db (ProductOp.update i r) = db' := by
      simp only [applyProductOp]
      rw [hres]
    obtain ⟨old, hfo⟩ : ∃ old, findProductById db i = some old := by
      cases hfo : findProductById db i with
      | none =>
        exfalso
        unfold routeUpdateProduct at hres
        rw [hfo] at hres
        split at hres
        · simp at hres
        · simp at hres
      | some old => exact ⟨old, rfl⟩
    obtain ⟨hv, hconf, hp, hdb⟩ := routeUpdateProduct_ok db i r db' p' old hfo hres
    rw [happ, hdb]
    have hfind : db.products.find? (fun x => x.id == i) = some old := hfo
    have hsafe : (routePatch old r).barcode = old.barcode ∨
        ∀ q ∈ db.products, q.barcode ≠ (routePatch old r).barcode := by
      cases hb : r.barcode with
      | none =>
        left
        simp [routePatch, hb]
      | some b =>
        have hpatch : (routePatch old r).barcode = b := by simp [routePatch, hb]
        by_cases hbe : b = old.barcode
        · left
          rw [hpatch, hbe]
        · right
          have hlen : 1 ≤ b.length := by
            unfold updateProductValid at hv
            rw [hb] at hv
            simp only [Bool.and_eq_true, Option.all_some, decide_eq_true_eq] at hv
            exact hv.1.1.2
          have hbne : b ≠ "" := ne_empty_of_one_le_length hlen
          have hcond : (b != "" && b != old.barcode) = true := by
            simp [hbne, hbe]
          unfold barcodeConflict at hconf
          rw [hb] at hconf
          dsimp only at hconf
          simp only [hcond, if_true] at hconf
          have hnone : findProductByBarcode db b = none := by
            cases hfb : findProductByBarcode db b with
            | none => rfl
            | some q =>
              rw [hfb] at hconf
              simp at hconf
          intro q hq
          have hfind' : db.products.find? (fun x => x.barcode == b) = none := hnone
          have := List.find?_eq_none.mp hfind' q hq
          rw [hpatch]
          simpa using this
    constructor
    · exact replace_map_nodup (fun x => x.id) db.products i (routePatch old r) old
        hid hid hfind (Or.inl rfl)
    · exact replace_map_nodup (fun x => x.barcode) db.products i (routePatch old r) old
        hid hbc hfind hsafe

/-- Any good sequence of create/update calls preserves distinct ids and
distinct barcodes. -/
theorem goodSeq_inv (ops : List ProductOp) :
    ∀ db : DB, IdsUnique db → BarcodesUnique db → goodSeq db ops = true →
      IdsUnique (runOps db ops) ∧ BarcodesUnique (runOps db ops) := by
  induction ops with
  | nil =>
    intro db h1 h2 _
    exact ⟨h1, h2⟩
  | cons op rest ih =>
    intro db h1 h2 hg
    unfold goodSeq at hg
    rw [Bool.and_eq_true] at hg
    obtain ⟨hfresh, hrest⟩ := hg
    have hstep : IdsUnique (applyProductOp db op) ∧ BarcodesUnique (applyProductOp db op) := by
      cases op with
      | create fid r => exact applyCreate_inv db fid r h1 h2 (by simpa [opFresh] using hfresh)
      | update i r => exact applyUpdate_inv db i r h1 h2
    exact ih (applyProductOp db op) hstep.1 hstep.2 hrest

/-- A valid `POST /products` whose barcode is already stored fails with
the duplicate-barcode conflict error. -/
theorem routeCreateProduct_conflict (db : DB) (fid : String) (r : RawCreateProduct)
    (q : Product) (hv : createProductValid r = true)
    (hq : q ∈ db.products) (hbarr : q.barcode = r.barcode) :
    routeCreateProduct db fid r
      = Except.error (ApiError.conflictError "條碼已存在") := by
  have hsome : (findProductByBarcode db r.barcode).isSome := by
    unfold findProductByBarcode
    rw [List.find?_isSome]
    exact ⟨q, hq, by simp [hbarr]⟩
  unfold routeCreateProduct
  cases hfb : findProductByBarcode db r.barcode with
  | none =>
    rw [hfb] at hsome
    simp at hsome
  | some x => simp [hv, hfb]

/-- After a full item replacement (delete all rows of the order, append
the new rows), the order's item list is exactly the new rows and every
other order's rows are untouched. -/
theorem filter_after_replace (l : List OrderItem) (i : String) (rows : List OrderItem)
    (hrows : ∀ x ∈ rows, x.orderId = i) :
    (((l.filter fun oi => !(oi.orderId == i)) ++ rows).filter fun oi => oi.orderId == i)
      = rows ∧
    (((l.filter fun oi => !(oi.orderId == i)) ++ rows).filter fun oi => !(oi.orderId == i))
      = l.filter fun oi => !(oi.orderId == i) := by
  constructor
  · rw [List.filter_append]
    have h1 : ((l.filter fun oi => !(oi.orderId == i)).filter fun oi => oi.orderId == i)
        = [] := by
      rw [List.filter_eq_nil_iff]
      intro a ha
      have := (List.mem_filter.mp ha).2
      simp at this ⊢
      exact this
    have h2 : rows.filter (fun oi => oi.orderId == i) = rows := by
      rw [List.filter_eq_self]
      intro a ha
      simp [hrows a ha]
    rw [h1, h2, List.nil_append]
  · rw [List.filter_append]
    have h1 : ((l.filter fun oi => !(oi.orderId == i)).filter fun oi => !(oi.orderId == i))
        = l.filter fun oi => !(oi.orderId == i) := by
      rw [List.filter_eq_self]
      intro a ha
      exact (List.mem_filter.mp ha).2
    have h2 : rows.filter (fun oi => !(oi.orderId == i)) = [] := by
      rw [List.filter_eq_nil_iff]
      intro a ha
      simp [hrows a ha]
    rw [h1, h2, List.append_nil]

/-! ## Claim theorems -/

/-- C1: for every createOrder request in which some item's productId does
not correspond to an existing product, both the `POST /orders` handler and
`OrderService.createOrder` fail with the "some products not found"
validation error produced by the single batched existence lookup, and the
state is unchanged — no Order and no OrderItem is persisted. -/
theorem C1_createOrder_missing_product (db : DB) (fid : String)
    (r : RawCreateOrder) (m : String) (hwf : IdsUnique db)
    (hv : createOrderValid r = true)
    (hm : m ∈ r.items.map fun it => it.productId)
    (hmiss : ∀ p ∈ db.products, p.id ≠ m) :
    routeCreateOrder db fid r
      = Except.error (ApiError.validationError "部分產品不存在") ∧
    serviceCreateOrder db fid r
      = Except.error (ApiError.validationError "Some products not found") ∧
    applyRouteCreateOrder db fid r = db ∧
    applyServiceCreateOrder db fid r = db := by
  have h1 := routeCreateOrder_missing db fid r m hwf hv hm hmiss
  have h2 := serviceCreateOrder_missing db fid r m hwf hm hmiss
  refine ⟨h1, h2, ?_, ?_⟩
  · unfold applyRouteCreateOrder
    rw [h1]
  · unfold applyServiceCreateOrder
    rw [h2]

/-- Witness for C1 at a concrete state and request. -/
theorem C1_witness :
    (IdsUnique dbOneProduct ∧ createOrderValid reqGhost = true ∧
      "ghost" ∈ reqGhost.items.map (fun it => it.productId) ∧
      (∀ p ∈ dbOneProduct.products, p.id ≠ "ghost")) ∧
    (routeCreateOrder dbOneProduct "o9" reqGhost
        = Except.error (ApiError.validationError "部分產品不存在") ∧
      serviceCreateOrder dbOneProduct "o9" reqGhost
        = Except.error (ApiError.validationError "Some products not found") ∧
      applyRouteCreateOrder dbOneProduct "o9" reqGhost = dbOneProduct ∧
      applyServiceCreateOrder dbOneProduct "o9" reqGhost = dbOneProduct) :=
  ⟨⟨by unfold IdsUnique; decide, by decide, by decide, by decide⟩,
    C1_createOrder_missing_product dbOneProduct "o9" reqGhost "ghost"
      (by unfold IdsUnique; decide) (by decide) (by decide) (by decide)⟩

/-- C10: for every createOrder input in which every submitted productId
exists but at least two items share a productId, the batched existence
check compares the de-duplicated fetched row count against the raw item
count, so both createOrder implementations fail with the "some products
not found" validation error even though no product is missing, and
nothing is persisted. -/
theorem C10_duplicate_product_ids (db : DB) (fid : String)
    (r : RawCreateOrder) (hwf : IdsUnique db)
    (hv : createOrderValid r = true)
    (_hall : ∀ pid ∈ r.items.map fun it => it.productId,
      ∃ p ∈ db.products, p.id = pid)
    (hdup : ¬ (r.items.map fun it => it.productId).Nodup) :
    routeCreateOrder db fid r
      = Except.error (ApiError.validationError "部分產品不存在") ∧
    serviceCreateOrder db fid r
      = Except.error (ApiError.validationError "Some products not found") ∧
    applyRouteCreateOrder db fid r = db ∧
    applyServiceCreateOrder db fid r = db := by
  have h1 := routeCreateOrder_dup db fid r hwf hv hdup
  have h2 := serviceCreateOrder_dup db fid r hwf hdup
  refine ⟨h1, h2, ?_, ?_⟩
  · unfold applyRouteCreateOrder
    rw [h1]
  · unfold applyServiceCreateOrder
    rw [h2]

/-- Witness for C10: two items for the same existing product. -/
theorem C10_witness :
    (IdsUnique dbOneProduct ∧ createOrderValid reqDup = true ∧
      (∀ pid ∈ reqDup.items.map fun it => it.productId,
        ∃ p ∈ dbOneProduct.products, p.id = pid) ∧
      ¬ (reqDup.items.map fun it => it.productId).Nodup) ∧
    (routeCreateOrder dbOneProduct "o9" reqDup
        = Except.error (ApiError.validationError "部分產品不存在") ∧
      serviceCreateOrder dbOneProduct "o9" reqDup
        = Except.error (ApiError.validationError "Some products not found") ∧
      applyRouteCreateOrder dbOneProduct "o9" reqDup = dbOneProduct ∧
      applyServiceCreateOrder dbOneProduct "o9" reqDup = dbOneProduct) :=
  ⟨⟨by unfold IdsUnique; decide, by decide, by decide, by decide⟩,
    C10_duplicate_product_ids dbOneProduct "o9" reqDup
      (by unfold IdsUnique; decide) (by decide) (by decide) (by decide)⟩

/-- C2 (amended): for every existing order and every updateOrder payload
containing items, both implementations perform a full replace — on
success the order's item rows are exactly the submitted items and other
orders' rows are untouched. The `PUT /orders/:id` route handler updates
`note` only when it is present in the payload (an update that supplies
items but omits note leaves the stored note unchanged), but
`OrderService.updateOrder` always overwrites the note with the payload's
note, which is NULL when the payload omits it. -/
theorem C2_updateOrder_full_replace :
    (∀ (db : DB) (i : String) (r : RawUpdateOrder) (its : List RawOrderItem)
        (db' : DB) (ord : Order) (existing : Order),
      r.items = some its →
      (db.orders.find? fun o => o.id == i) = some existing →
      routeUpdateOrder db i r = Except.ok (db', ord) →
      orderItemsOfOrder db' i = its.map (mkOrderItem i) ∧
      (db'.orderItems.filter fun oi => !(oi.orderId == i))
        = (db.orderItems.filter fun oi => !(oi.orderId == i)) ∧
      (r.note = none → ord.note = existing.note) ∧
      (∀ s, r.note = some s → ord.note = jsOrNull (some s))) ∧
    (∀ (db : DB) (i : String) (r : RawUpdateOrder) (its : List RawOrderItem)
        (db' : DB) (ord : Order) (existing : Order),
      r.items = some its →
      (db.orders.find? fun o => o.id == i) = some existing →
      serviceUpdateOrder db i r = Except.ok (db', ord) →
      orderItemsOfOrder db' i = its.map (mkOrderItem i) ∧
      ord.note = r.note) := by
  have hrows : ∀ (i : String) (its : List RawOrderItem),
      ∀ x ∈ its.map (mkOrderItem i), x.orderId = i := by
    intro i its x hx
    obtain ⟨it, _, rfl⟩ := List.mem_map.mp hx
    rfl
  constructor
  · intro db i r its db' ord existing hits hord h
    obtain ⟨hv, hfk, hordEq, hdb⟩ :=
      routeUpdateOrder_ok_items db i r its db' ord existing hits hord h
    have hrep := filter_after_replace db.orderItems i (its.map (mkOrderItem i))
      (hrows i its)
    refine ⟨?_, ?_, ?_, ?_⟩
    · rw [hdb]
      exact hrep.1
    · rw [hdb]
      exact hrep.2
    · intro hn
      rw [hordEq]
      simp [routeOrderNote, hn]
    · intro s hs
      rw [hordEq]
      simp [routeOrderNote, hs]
  · intro db i r its db' ord existing hits hord h
    obtain ⟨hlen, hordEq, hdb⟩ :=
      serviceUpdateOrder_ok_items db i r its db' ord existing hits hord h
    have hrep := filter_after_replace db.orderItems i (its.map (mkOrderItem i))
      (hrows i its)
    refine ⟨?_, ?_⟩
    · rw [hdb]
      exact hrep.1
    · rw [hordEq]

/-- Witness for C2 at a concrete state: the route handler keeps the note,
the service overwrites it; both replace the item set. -/
theorem C2_witness :
    (updCokeNoNote.items = some [riCoke1] ∧
      (dbWithOrder.orders.find? fun o => o.id == "o1") = some oKeep ∧
      routeUpdateOrder dbWithOrder "o1" updCokeNoNote
        = Except.ok (dbC2route, oKeep) ∧
      serviceUpdateOrder dbWithOrder "o1" updCokeNoNote
        = Except.ok (dbC2serv, oNoNote)) ∧
    (orderItemsOfOrder dbC2route "o1" = [riCoke1].map (mkOrderItem "o1") ∧
      (updCokeNoNote.note = none → oKeep.note = oKeep.note) ∧
      orderItemsOfOrder dbC2serv "o1" = [riCoke1].map (mkOrderItem "o1") ∧
      oNoNote.note = updCokeNoNote.note) :=
  ⟨⟨rfl, rfl, rfl, rfl⟩,
    ⟨(C2_updateOrder_full_replace.1 dbWithOrder "o1" updCokeNoNote [riCoke1]
        dbC2route oKeep oKeep rfl rfl rfl).1,
      (C2_updateOrder_full_replace.1 dbWithOrder "o1" updCokeNoNote [riCoke1]
        dbC2route oKeep oKeep rfl rfl rfl).2.2.1,
      (C2_updateOrder_full_replace.2 dbWithOrder "o1" updCokeNoNote [riCoke1]
        dbC2serv oNoNote oKeep rfl rfl rfl).1,
      (C2_updateOrder_full_replace.2 dbWithOrder "o1" updCokeNoNote [riCoke1]
        dbC2serv oNoNote oKeep rfl rfl rfl).2⟩⟩

/-- C2 counterexample: the stored note is "keep" and the payload supplies
items but omits note, yet `OrderService.updateOrder` succeeds with the
stored note overwritten to NULL — the claim's "leaves the previously
stored note unchanged" fails on this implementation. -/
theorem C2_counterexample :
    dbWithOrder.orders = [oKeep] ∧
    oKeep.note = some "keep" ∧
    updCokeNoNote.note = none ∧
    serviceUpdateOrder dbWithOrder "o1" updCokeNoNote
      = Except.ok (dbC2serv, oNoNote) ∧
    oNoNote.note = none :=
  ⟨rfl, rfl, rfl, rfl, rfl⟩

/-- C3 (amended): for every existing order and updateOrder payload with
items, `OrderService.updateOrder` validates referential integrity exactly
as in create — the batched lookup — before any row is written, failing
with the "Some products not found" validation error and leaving the state
unchanged when a submitted productId does not exist. The `PUT /orders/:id`
route handler performs no existence pre-check: the dangling insert is
rejected only by the gateway's referential enforcement inside the
transaction, surfacing as a 500 persistence error (not a ValidationError),
with the state rolled back unchanged. -/
theorem C3_updateOrder_referential_integrity :
    (∀ (db : DB) (i : String) (r : RawUpdateOrder) (its : List RawOrderItem)
        (existing : Order) (m : String),
      IdsUnique db → r.items = some its →
      (db.orders.find? fun o => o.id == i) = some existing →
      m ∈ its.map (fun it => it.productId) →
      (∀ p ∈ db.products, p.id ≠ m) →
      serviceUpdateOrder db i r
        = Except.error (ApiError.validationError "Some products not found") ∧
      applyServiceUpdateOrder db i r = db) ∧
    (∀ (db : DB) (i : String) (r : RawUpdateOrder) (its : List RawOrderItem)
        (existing : Order) (m : String),
      updateOrderValid r = true → r.items = some its →
      (db.orders.find? fun o => o.id == i) = some existing →
      m ∈ its.map (fun it => it.productId) →
      (∀ p ∈ db.products, p.id ≠ m) →
      routeUpdateOrder db i r
        = Except.error (ApiError.persistenceError "更新訂單失敗") ∧
      applyRouteUpdateOrder db i r = db) := by
  constructor
  · intro db i r its existing m hwf hits hord hm hmiss
    have h := serviceUpdateOrder_missing db i r its existing m hwf hits hord hm hmiss
    refine ⟨h, ?_⟩
    unfold applyServiceUpdateOrder
    rw [h]
  · intro db i r its existing m hv hits hord hm hmiss
    have h := routeUpdateOrder_missing db i r its existing m hv hits hord hm hmiss
    refine ⟨h, ?_⟩
    unfold applyRouteUpdateOrder
    rw [h]

/-- Witness for C3 at a concrete state and payload. -/
theorem C3_witness :
    (IdsUnique dbWithOrder ∧ updateOrderValid updGhost = true ∧
      updGhost.items = some [riGhost1] ∧
      (dbWithOrder.orders.find? fun o => o.id == "o1") = some oKeep ∧
      "ghost" ∈ [riGhost1].map (fun it => it.productId) ∧
      (∀ p ∈ dbWithOrder.products, p.id ≠ "ghost")) ∧
    (serviceUpdateOrder dbWithOrder "o1" updGhost
        = Except.error (ApiError.validationError "Some products not found") ∧
      applyServiceUpdateOrder dbWithOrder "o1" updGhost = dbWithOrder) ∧
    (routeUpdateOrder dbWithOrder "o1" updGhost
        = Except.error (ApiError.persistenceError "更新訂單失敗") ∧
      applyRouteUpdateOrder dbWithOrder "o1" updGhost = dbWithOrder) :=
  ⟨⟨by unfold IdsUnique; decide, by decide, by decide, by decide, by decide,
      by decide⟩,
    C3_updateOrder_referential_integrity.1 dbWithOrder "o1" updGhost [riGhost1]
      oKeep "ghost" (by unfold IdsUnique; decide) (by decide) (by decide)
      (by decide) (by decide),
    C3_updateOrder_referential_integrity.2 dbWithOrder "o1" updGhost [riGhost1]
      oKeep "ghost" (by decide) (by decide) (by decide) (by decide)
      (by decide)⟩

/-- C3 counterexample: a valid payload referencing the missing product
"ghost" makes `PUT /orders/:id` fail with the 500 persistence error of
the rolled-back transaction, not with a ValidationError as the claim
states. -/
theorem C3_counterexample :
    (dbWithOrder.products.all fun p => !(p.id == "ghost")) = true ∧
    updGhost.items = some [riGhost1] ∧
    riGhost1.productId = "ghost" ∧
    routeUpdateOrder dbWithOrder "o1" updGhost
      = Except.error (ApiError.persistenceError "更新訂單失敗") ∧
    resultIsValidationErr (routeUpdateOrder dbWithOrder "o1" updGhost) = false :=
  ⟨by decide, rfl, rfl, rfl, rfl⟩

/-- C4 (amended): `DELETE /products/:id` behaves as the claim states —
ConflictError with the product left unchanged while any OrderItem
references it, success (removing the row) only when none does, and
NotFoundError for a missing id. `ProductService.deleteProduct`, however,
performs no dependent-order check: the delete reaches the gateway, whose
referential enforcement rejects it as a persistence failure, not a
ConflictError, with the state unchanged. -/
theorem C4_deleteProduct_dependents :
    (∀ (db : DB) (i : String) (p : Product),
      findProductById db i = some p → orderItemsOfProduct db i ≠ [] →
      routeDeleteProduct db i
        = Except.error (ApiError.conflictError "無法刪除產品，該產品已有相關訂單") ∧
      applyRouteDeleteProduct db i = db) ∧
    (∀ (db : DB) (i : String) (p : Product),
      findProductById db i = some p → orderItemsOfProduct db i = [] →
      routeDeleteProduct db i
        = Except.ok { db with products := db.products.filter fun q => !(q.id == i) }) ∧
    (∀ (db : DB) (i : String),
      findProductById db i = none →
      routeDeleteProduct db i = Except.error (ApiError.notFoundError "產品不存在")) ∧
    (∀ (db : DB) (i : String) (p : Product),
      findProductById db i = some p → orderItemsOfProduct db i ≠ [] →
      serviceDeleteProduct db i
        = Except.error (ApiError.persistenceError "Foreign key constraint violated") ∧
      resultIsConflictErr (serviceDeleteProduct db i) = false ∧
      applyServiceDeleteProduct db i = db) := by
  refine ⟨?_, ?_, ?_, ?_⟩
  · intro db i p hfind hdep
    have hlen : 0 < (orderItemsOfProduct db i).length := List.length_pos.mpr hdep
    have h : routeDeleteProduct db i
        = Except.error (ApiError.conflictError "無法刪除產品，該產品已有相關訂單") := by
      unfold routeDeleteProduct
      rw [hfind]
      simp [hlen]
    refine ⟨h, ?_⟩
    unfold applyRouteDeleteProduct
    rw [h]
  · intro db i p hfind hdep
    have hempty : (orderItemsOfProduct db i).isEmpty = true := by
      rw [hdep]
      rfl
    unfold routeDeleteProduct
    rw [hfind]
    have hlen : ¬ 0 < (orderItemsOfProduct db i).length := by
      rw [hdep]
      simp
    simp only [hdep, List.length_nil, gt_iff_lt, Nat.lt_irrefl, if_false]
    unfold prismaProductDelete
    rw [hempty]
    rfl
  · intro db i hfind
    unfold routeDeleteProduct
    rw [hfind]
  · intro db i p hfind hdep
    have hempty : (orderItemsOfProduct db i).isEmpty = false := by
      cases hoi : orderItemsOfProduct db i with
      | nil => exact absurd hoi hdep
      | cons a t => rfl
    have h : serviceDeleteProduct db i
        = Except.error (ApiError.persistenceError "Foreign key constraint violated") := by
      unfold serviceDeleteProduct
      rw [hfind]
      unfold prismaProductDelete
      rw [hempty]
      rfl
    refine ⟨h, ?_, ?_⟩
    · rw [h]
      rfl
    · unfold applyServiceDeleteProduct
      rw [h]

/-- Witness for C4 at concrete states: blocked route delete, successful
route delete without dependents, missing id, and the service-level
gateway rejection. -/
theorem C4_witness :
    (findProductById dbWithOrder "p1" = some pCoke ∧
      orderItemsOfProduct dbWithOrder "p1" ≠ [] ∧
      findProductById dbWithOrder "p2" = some pTea ∧
      orderItemsOfProduct dbWithOrder "p2" = [] ∧
      findProductById dbWithOrder "ghost" = none) ∧
    (routeDeleteProduct dbWithOrder "p1"
        = Except.error (ApiError.conflictError "無法刪除產品，該產品已有相關訂單") ∧
      applyRouteDeleteProduct dbWithOrder "p1" = dbWithOrder) ∧
    routeDeleteProduct dbWithOrder "p2"
      = Except.ok { dbWithOrder with
          products := dbWithOrder.products.filter fun q => !(q.id == "p2") } ∧
    routeDeleteProduct dbWithOrder "ghost"
      = Except.error (ApiError.notFoundError "產品不存在") ∧
    (serviceDeleteProduct dbWithOrder "p1"
        = Except.error (ApiError.persistenceError "Foreign key constraint violated") ∧
      resultIsConflictErr (serviceDeleteProduct dbWithOrder "p1") = false ∧
      applyServiceDeleteProduct dbWithOrder "p1" = dbWithOrder) :=
  ⟨⟨by decide, by decide, by decide, by decide, by decide⟩,
    C4_deleteProduct_dependents.1 dbWithOrder "p1" pCoke (by decide) (by decide),
    C4_deleteProduct_dependents.2.1 dbWithOrder "p2" pTea (by decide) (by decide),
    C4_deleteProduct_dependents.2.2.1 dbWithOrder "ghost" (by decide),
    C4_deleteProduct_dependents.2.2.2 dbWithOrder "p1" pCoke (by decide)
      (by decide)⟩

/-- C4 counterexample: `pCoke` is referenced by `itemCoke`, yet
`ProductService.deleteProduct` does not fail with a ConflictError — the
rejection is the gateway's persistence failure. -/
theorem C4_counterexample :
    orderItemsOfProduct dbWithOrder "p1" = [itemCoke] ∧
    serviceDeleteProduct dbWithOrder "p1"
      = Except.error (ApiError.persistenceError "Foreign key constraint violated") ∧
    resultIsConflictErr (serviceDeleteProduct dbWithOrder "p1") = false ∧
    applyServiceDeleteProduct dbWithOrder "p1" = dbWithOrder :=
  ⟨rfl, rfl, rfl, rfl⟩

/-- C5: over every sequence of (zod-validated) createProduct and
updateProduct calls in which the gateway hands each create a fresh id,
barcode uniqueness is an invariant: starting from a state with distinct
ids and barcodes, at most one product with a given barcode exists at any
time. A second create with an already-stored barcode fails with the
duplicate-barcode ConflictError and leaves the state — in particular the
original product — unmodified. -/
theorem C5_barcode_uniqueness :
    (∀ (db : DB) (ops : List ProductOp),
      IdsUnique db → BarcodesUnique db → goodSeq db ops = true →
      BarcodesUnique (runOps db ops)) ∧
    (∀ (db : DB) (fid : String) (r : RawCreateProduct) (q : Product),
      createProductValid r = true → q ∈ db.products → q.barcode = r.barcode →
      routeCreateProduct db fid r
        = Except.error (ApiError.conflictError "條碼已存在") ∧
      applyRouteCreateProduct db fid r = db) := by
  constructor
  · intro db ops h1 h2 hg
    exact (goodSeq_inv ops db h1 h2 hg).2
  · intro db fid r q hv hq hb
    have h := routeCreateProduct_conflict db fid r q hv hq hb
    refine ⟨h, ?_⟩
    unfold applyRouteCreateProduct
    rw [h]

/-- Witness for C5: a concrete create-then-update sequence keeps barcodes
unique, and re-creating the stored barcode fails with the conflict error,
leaving the state unchanged. -/
theorem C5_witness :
    (IdsUnique dbOneProduct ∧ BarcodesUnique dbOneProduct ∧
      goodSeq dbOneProduct opsC5 = true ∧
      createProductValid prodDupBarcode = true ∧
      pCoke ∈ dbOneProduct.products ∧ pCoke.barcode = prodDupBarcode.barcode) ∧
    BarcodesUnique (runOps dbOneProduct opsC5) ∧
    (routeCreateProduct dbOneProduct "p8" prodDupBarcode
        = Except.error (ApiError.conflictError "條碼已存在") ∧
      applyRouteCreateProduct dbOneProduct "p8" prodDupBarcode = dbOneProduct) :=
  ⟨⟨by unfold IdsUnique; decide, by unfold BarcodesUnique; decide, by decide,
      by decide, by decide, by decide⟩,
    C5_barcode_uniqueness.1 dbOneProduct opsC5 (by unfold IdsUnique; decide)
      (by unfold BarcodesUnique; decide) (by decide),
    C5_barcode_uniqueness.2 dbOneProduct "p8" prodDupBarcode pCoke (by decide)
      (by decide) (by decide)⟩

/-- C6: updateProduct is sparse on both implementations: for every
existing product and partial payload, a successful update changes only
the fields present in the payload — every absent field (for the route,
including the schema-absent `isOrdered`) retains its pre-call value — and
the updated record is both returned and written back in place. -/
theorem C6_updateProduct_sparse :
    (∀ (db : DB) (i : String) (r : RawUpdateProduct) (db' : DB)
        (p' : Product) (old : Product),
      findProductById db i = some old →
      routeUpdateProduct db i r = Except.ok (db', p') →
      RouteSparse old p' r ∧
      db' = { db with
               products := db.products.map fun q => if q.id == i then p' else q }) ∧
    (∀ (db : DB) (i : String) (data : UpdateProductRequest) (db' : DB)
        (p' : Product) (old : Product),
      findProductById db i = some old →
      serviceUpdateProduct db i data = Except.ok (db', p') →
      ServiceSparse old p' data ∧
      db' = { db with
               products := db.products.map fun q => if q.id == i then p' else q }) := by
  constructor
  · intro db i r db' p' old hold h
    obtain ⟨hv, hconf, hp, hdb⟩ := routeUpdateProduct_ok db i r db' p' old hold h
    subst hp
    refine ⟨?_, hdb⟩
    unfold RouteSparse
    refine ⟨?_, ?_, ?_, ?_, ?_, ?_, ?_, ?_, ?_, ?_, ?_, ?_⟩
    · intro hn
      simp [routePatch, hn]
    · intro hn
      simp [routePatch, hn]
    · intro hn
      simp [routePatch, hn]
    · intro hn
      simp [routePatch, hn]
    · intro hn
      simp [routePatch, hn]
    · intro hn
      simp [routePatch, hn]
    · intro hn
      simp [routePatch, hn]
    · intro hn
      simp [routePatch, hn]
    · intro hn
      simp [routePatch, hn]
    · simp [routePatch]
    · simp [routePatch]
    · intro v hv2
      simp [routePatch, hv2]
  · intro db i data db' p' old hold h
    obtain ⟨hconf, hvend, hp, hdb⟩ := serviceUpdateProduct_ok db i data db' p' old hold h
    subst hp
    refine ⟨?_, hdb⟩
    unfold ServiceSparse
    refine ⟨?_, ?_, ?_, ?_, ?_, ?_, ?_, ?_, ?_, ?_, ?_, ?_⟩
    · intro hn
      simp [servicePatch, hn]
    · intro hn
      simp [servicePatch, hn]
    · intro hn
      simp [servicePatch, hn]
    · intro hn
      simp [servicePatch, hn]
    · intro hn
      simp [servicePatch, hn]
    · intro hn
      simp [servicePatch, hn]
    · intro hn
      simp [servicePatch, hn]
    · intro hn
      simp [servicePatch, hn]
    · intro hn
      simp [servicePatch, hn]
    · intro hn
      simp [servicePatch, hn]
    · simp [servicePatch]
    · intro v hv2
      simp [servicePatch, hv2]

/-- Witness for C6: updating only `sellPrice` on the stored product, on
both paths, yields the stored row with only that field changed. -/
theorem C6_witness :
    (findProductById dbOneProduct "p1" = some pCoke ∧
      routeUpdateProduct dbOneProduct "p1" updSell30
        = Except.ok
            ({ products := [pCokeSell30], orders := [], orderItems := [] },
              pCokeSell30) ∧
      serviceUpdateProduct dbOneProduct "p1" servUpdSell30
        = Except.ok
            ({ products := [pCokeSell30], orders := [], orderItems := [] },
              pCokeSell30)) ∧
    (RouteSparse pCoke pCokeSell30 updSell30 ∧
      ServiceSparse pCoke pCokeSell30 servUpdSell30) :=
  ⟨⟨by decide, by rfl, by rfl⟩,
    (C6_updateProduct_sparse.1 dbOneProduct "p1" updSell30
        { products := [pCokeSell30], orders := [], orderItems := [] }
        pCokeSell30 pCoke (by decide) (by rfl)).1,
    (C6_updateProduct_sparse.2 dbOneProduct "p1" servUpdSell30
        { products := [pCokeSell30], orders := [], orderItems := [] }
        pCokeSell30 pCoke (by decide) (by rfl)).1⟩

/-- C7 (amended): `ProductService.createProduct` fails with the
"Invalid vendor IDs" validation error, persisting nothing, whenever the
supplied vendor list is non-empty and contains an id outside the static
registry (given no barcode conflict, which is checked first); an empty or
absent vendor list is not checked and the product is stored with an empty
vendor list. The `POST /products` route handler, however, performs no
vendor-registry validation at all: it persists whatever `vendorIds` were
submitted. -/
theorem C7_vendor_validation :
    (∀ (db : DB) (fid : String) (data : CreateProductRequest)
        (vs : List String),
      data.vendors = some vs → vs ≠ [] →
      (∃ v ∈ vs, ((VENDORS.map fun x => x.1).contains v) = false) →
      findProductByBarcode db data.barcode = none →
      serviceCreateProduct db fid data
        = Except.error (ApiError.validationError "Invalid vendor IDs") ∧
      applyServiceCreateProduct db fid data = db) ∧
    (∀ (db : DB) (fid : String) (data : CreateProductRequest) (db' : DB)
        (p : Product),
      serviceCreateProduct db fid data = Except.ok (db', p) →
      (data.vendors = none ∨ data.vendors = some []) → p.vendors = []) ∧
    (∀ (db : DB) (fid : String) (r : RawCreateProduct) (db' : DB)
        (p : Product),
      routeCreateProduct db fid r = Except.ok (db', p) →
      p.vendors = r.vendorIds) := by
  refine ⟨?_, ?_, ?_⟩
  · intro db fid data vs hvs hne hbad hbc
    have hvalid : validateVendorIds vs = false := by
      unfold validateVendorIds
      have hemp : vs.isEmpty = false := by
        cases vs with
        | nil => exact absurd rfl hne
        | cons a t => rfl
      rw [hemp]
      simp only [Bool.false_eq_true, if_false]
      rw [List.all_eq_false]
      obtain ⟨v, hv, hvc⟩ := hbad
      refine ⟨v, hv, ?_⟩
      intro hcontra
      rw [hvc] at hcontra
      exact absurd hcontra (by decide)
    have hvi : vendorsInvalid data.vendors = true := by
      unfold vendorsInvalid
      rw [hvs]
      have hlen : 0 < vs.length := List.length_pos.mpr hne
      simp [hlen, hvalid]
    have h : serviceCreateProduct db fid data
        = Except.error (ApiError.validationError "Invalid vendor IDs") := by
      unfold serviceCreateProduct
      rw [hbc]
      dsimp only
      simp [hvi]
    refine ⟨h, ?_⟩
    unfold applyServiceCreateProduct
    rw [h]
  · intro db fid data db' p h hv2
    obtain ⟨hbc, hvi, hp, hdb⟩ := serviceCreateProduct_ok db fid data db' p h
    subst hp
    cases hv2 with
    | inl hn => simp [mkServiceProduct, hn]
    | inr hs => simp [mkServiceProduct, hs]
  · intro db fid r db' p h
    obtain ⟨hv, hbc, hp, hdb⟩ := routeCreateProduct_ok db fid r db' p h
    subst hp
    simp [mkRouteProduct]

/-- Witness for C7: an out-of-registry vendor id is rejected by the
service and persisted verbatim by the route; a vendor-less service create
stores the empty list. -/
theorem C7_witness :
    (servReqVendor99.vendors = some ["99"] ∧
      (∃ v ∈ ["99"], ((VENDORS.map fun x => x.1).contains v) = false) ∧
      findProductByBarcode dbOneProduct "JUICE-001" = none ∧
      serviceCreateProduct dbOneProduct "p8" servReqWater
        = Except.ok
            ({ products := [pCoke, mkServiceProduct "p8" servReqWater],
               orders := [], orderItems := [] },
              mkServiceProduct "p8" servReqWater) ∧
      routeCreateProduct dbOneProduct "p9" prodVendor99
        = Except.ok
            ({ products := [pCoke, pVendor99], orders := [], orderItems := [] },
              pVendor99)) ∧
    (serviceCreateProduct dbOneProduct "p8" servReqVendor99
        = Except.error (ApiError.validationError "Invalid vendor IDs") ∧
      applyServiceCreateProduct dbOneProduct "p8" servReqVendor99 = dbOneProduct) ∧
    (mkServiceProduct "p8" servReqWater).vendors = [] ∧
    pVendor99.vendors = prodVendor99.vendorIds :=
  ⟨⟨by decide, by decide, by decide, by rfl, by rfl⟩,
    C7_vendor_validation.1 dbOneProduct "p8" servReqVendor99 ["99"] (by decide)
      (by decide) (by decide) (by decide),
    C7_vendor_validation.2.1 dbOneProduct "p8" servReqWater
      { products := [pCoke, mkServiceProduct "p8" servReqWater],
        orders := [], orderItems := [] }
      (mkServiceProduct "p8" servReqWater) (by rfl) (Or.inl (by decide)),
    C7_vendor_validation.2.2 dbOneProduct "p9" prodVendor99
      { products := [pCoke, pVendor99], orders := [], orderItems := [] }
      pVendor99 (by rfl)⟩

/-- C7 counterexample: the route handler accepts and persists vendor id
"99", which is not in the registry — no ValidationError, a product is
stored, refuting the claim for this createProduct implementation. -/
theorem C7_counterexample :
    ((VENDORS.map fun x => x.1).contains "99") = false ∧
    prodVendor99.vendorIds = ["99"] ∧
    routeCreateProduct dbOneProduct "p9" prodVendor99
      = Except.ok
          ({ products := [pCoke, pVendor99], orders := [], orderItems := [] },
            pVendor99) ∧
    pVendor99.vendors = ["99"] :=
  ⟨by decide, rfl, rfl, rfl⟩

/-- C8 (amended): products are created with `isOrdered = false` on both
create paths; after every successful `POST /orders`, every product
referenced by one of the order's items has `isOrdered = true`, set by the
handler's follow-up `updateMany`. `OrderService.createOrder`, however,
leaves the products table — and hence every `isOrdered` flag —
untouched. -/
theorem C8_isOrdered_after_createOrder :
    (∀ (db : DB) (fid : String) (r : RawCreateOrder) (db' : DB) (ord : Order),
      routeCreateOrder db fid r = Except.ok (db', ord) →
      ∀ p ∈ db'.products, p.id ∈ (r.items.map fun it => it.productId) →
        p.isOrdered = true) ∧
    (∀ (db : DB) (fid : String) (r : RawCreateProduct) (db' : DB) (p : Product),
      routeCreateProduct db fid r = Except.ok (db', p) → p.isOrdered = false) ∧
    (∀ (db : DB) (fid : String) (data : CreateProductRequest) (db' : DB)
        (p : Product),
      serviceCreateProduct db fid data = Except.ok (db', p) →
      p.isOrdered = false) ∧
    (∀ (db : DB) (fid : String) (r : RawCreateOrder) (db' : DB) (ord : Order),
      serviceCreateOrder db fid r = Except.ok (db', ord) →
      db'.products = db.products) := by
  refine ⟨?_, ?_, ?_, ?_⟩
  · intro db fid r db' ord h p hp hpid
    obtain ⟨hv, hord, hdb⟩ := routeCreateOrder_ok db fid r db' ord h
    subst hdb
    simp only at hp
    obtain ⟨q, hq, rfl⟩ := List.mem_map.mp hp
    by_cases hc : ((r.items.map fun it => it.productId).contains q.id) = true
    · simp only [hc, if_true]
    · exfalso
      rw [Bool.not_eq_true] at hc
      simp only [hc, Bool.false_eq_true, if_false] at hpid
      have hmem : ((r.items.map fun it => it.productId).contains q.id) = true := by
        simpa using hpid
      rw [hc] at hmem
      exact absurd hmem (by decide)
  · intro db fid r db' p h
    obtain ⟨hv, hbc, hp, hdb⟩ := routeCreateProduct_ok db fid r db' p h
    subst hp
    rfl
  · intro db fid data db' p h
    obtain ⟨hbc, hvi, hp, hdb⟩ := serviceCreateProduct_ok db fid data db' p h
    subst hp
    rfl
  · intro db fid r db' ord h
    obtain ⟨hord, hdb⟩ := serviceCreateOrder_ok db fid r db' ord h
    rw [hdb]

/-- Witness for C8 at concrete inputs: the route sets the flag on the
referenced product, both creates start it at false, and the service-level
order create leaves the table untouched. -/
theorem C8_witness :
    (routeCreateOrder dbOneProduct "o9" reqCoke1
        = Except.ok
            ({ products := [pCokeOrdered], orders := [ordO9],
               orderItems := [{ orderId := "o9", productId := "p1", quantity := 1 }] },
              ordO9) ∧
      pCokeOrdered ∈ [pCokeOrdered] ∧
      pCokeOrdered.id ∈ (reqCoke1.items.map fun it => it.productId) ∧
      routeCreateProduct dbOneProduct "p9" prodVendor99
        = Except.ok
            ({ products := [pCoke, pVendor99], orders := [], orderItems := [] },
              pVendor99) ∧
      serviceCreateProduct dbOneProduct "p8" servReqWater
        = Except.ok
            ({ products := [pCoke, mkServiceProduct "p8" servReqWater],
               orders := [], orderItems := [] },
              mkServiceProduct "p8" servReqWater) ∧
      serviceCreateOrder dbOneProduct "o9" reqCoke1
        = Except.ok (dbC8, ordO9)) ∧
    (pCokeOrdered.isOrdered = true ∧
      pVendor99.isOrdered = false ∧
      (mkServiceProduct "p8" servReqWater).isOrdered = false ∧
      dbC8.products = dbOneProduct.products) :=
  ⟨⟨by rfl, by decide, by decide, by rfl, by rfl, by rfl⟩,
    C8_isOrdered_after_createOrder.1 dbOneProduct "o9" reqCoke1
        { products := [pCokeOrdered], orders := [ordO9],
          orderItems := [{ orderId := "o9", productId := "p1", quantity := 1 }] }
        ordO9 (by rfl) pCokeOrdered (by decide) (by decide),
    C8_isOrdered_after_createOrder.2.1 dbOneProduct "p9" prodVendor99
      { products := [pCoke, pVendor99], orders := [], orderItems := [] }
      pVendor99 (by rfl),
    C8_isOrdered_after_createOrder.2.2.1 dbOneProduct "p8" servReqWater
      { products := [pCoke, mkServiceProduct "p8" servReqWater],
        orders := [], orderItems := [] }
      (mkServiceProduct "p8" servReqWater) (by rfl),
    C8_isOrdered_after_createOrder.2.2.2 dbOneProduct "o9" reqCoke1 dbC8 ordO9
      (by rfl)⟩

/-- C8 counterexample: `OrderService.createOrder` succeeds for an order
referencing `pCoke`, yet the stored product still has
`isOrdered = false` — the flag is not set by this createOrder
implementation. -/
theorem C8_counterexample :
    serviceCreateOrder dbOneProduct "o9" reqCoke1 = Except.ok (dbC8, ordO9) ∧
    pCoke ∈ dbC8.products ∧
    pCoke.id ∈ (reqCoke1.items.map fun it => it.productId) ∧
    pCoke.isOrdered = false :=
  ⟨rfl, by decide, by decide, rfl⟩

/-- C9 (amended): `orderItemSchema` requires `quantity` to be a strictly
positive number, not a strictly positive integer: an item with zero or
negative quantity fails validation — and a createOrder request containing
one is rejected before any persistence is attempted — but any positive
quantity passes, integral or not. -/
theorem C9_quantity_positive_number :
    (∀ it : RawOrderItem,
      orderItemValid it = true ↔ (1 ≤ it.productId.length ∧ 0 < it.quantity)) ∧
    (∀ q : Rat, 0 < q →
      orderItemValid { productId := "x", quantity := q } = true) ∧
    (∀ (db : DB) (fid : String) (r : RawCreateOrder) (it : RawOrderItem),
      it ∈ r.items → it.quantity ≤ 0 →
      routeCreateOrder db fid r
        = Except.error (ApiError.validationError "驗證錯誤") ∧
      applyRouteCreateOrder db fid r = db) := by
  refine ⟨?_, ?_, ?_⟩
  · intro it
    unfold orderItemValid
    simp
  · intro q hq
    unfold orderItemValid
    simp only [Bool.and_eq_true, decide_eq_true_eq]
    exact ⟨by decide, hq⟩
  · intro db fid r it hit hq
    have hiv : orderItemValid it = false := by
      unfold orderItemValid
      have : ¬ (0 < it.quantity) := not_lt.mpr hq
      simp [this]
    have hall : r.items.all orderItemValid = false :=
      List.all_eq_false.mpr ⟨it, hit, by simp [hiv]⟩
    have hcv : createOrderValid r = false := by
      unfold createOrderValid
      rw [hall]
      simp
    have h : routeCreateOrder db fid r
        = Except.error (ApiError.validationError "驗證錯誤") := by
      unfold routeCreateOrder
      simp [hcv]
    refine ⟨h, ?_⟩
    unfold applyRouteCreateOrder
    rw [h]

/-- Witness for C9: a zero quantity is rejected before persistence; a
positive quantity passes the schema. -/
theorem C9_witness :
    (({ productId := "p1", quantity := 0 } : RawOrderItem)
        ∈ ({ note := none,
             items := [{ productId := "p1", quantity := 0 }] } : RawCreateOrder).items ∧
      (({ productId := "p1", quantity := 0 } : RawOrderItem).quantity ≤ 0) ∧
      (0 : Rat) < 1) ∧
    ((orderItemValid riCoke1 = true ↔
        (1 ≤ riCoke1.productId.length ∧ 0 < riCoke1.quantity)) ∧
      orderItemValid { productId := "x", quantity := 1 } = true ∧
      (routeCreateOrder dbOneProduct "o9"
          { note := none, items := [{ productId := "p1", quantity := 0 }] }
          = Except.error (ApiError.validationError "驗證錯誤") ∧
        applyRouteCreateOrder dbOneProduct "o9"
          { note := none, items := [{ productId := "p1", quantity := 0 }] }
          = dbOneProduct)) :=
  ⟨⟨by decide, by decide, by decide⟩,
    C9_quantity_positive_number.1 riCoke1,
    C9_quantity_positive_number.2.1 1 (by decide),
    C9_quantity_positive_number.2.2 dbOneProduct "o9"
      { note := none, items := [{ productId := "p1", quantity := 0 }] }
      { productId := "p1", quantity := 0 } (by decide) (by decide)⟩

/-- C9 counterexample: the non-integral quantity 3/2 passes the schema
and `POST /orders` persists the order item with it — refuting the claim
that non-integral quantities are rejected. -/
theorem C9_counterexample :
    (mkRat 3 2).den = 2 ∧
    orderItemValid { productId := "p1", quantity := mkRat 3 2 } = true ∧
    routeCreateOrder dbOneProduct "o9" reqHalf = Except.ok (dbC9, ordO9) ∧
    dbC9.orderItems
      = [{ orderId := "o9", productId := "p1", quantity := mkRat 3 2 }] :=
  ⟨rfl, rfl, rfl, rfl⟩
